import Mathlib

/-!
Verification development for the Qualtrics report generator
(`qualtrics_report_generator.py`).  The Python source is shallowly embedded:
pure helper functions become Lean functions on `String` / `List Char`,
pandas cell values become `Option String` (`none` models `NaN`/`None`),
Python dicts become insertion-ordered association lists, and the few regular
expressions of the source (all of which are plain sequences of
character-class atoms) are run by a small greedy-backtracking matcher that
mirrors Python `re` semantics on such patterns.
-/

namespace Qualtrics

/-! ### Python-style string primitives -/

/-- Characters matched by Python `\s` (with `re.UNICODE`, the default for
`str` patterns) and stripped by `str.strip()`: ASCII whitespace, the C1
separators, and the common Unicode space characters. -/
def isPySpace (c : Char) : Bool :=
  c = ' ' || c = '\t' || c = '\n' || c = '\r' || c = '\x0b' || c = '\x0c' ||
  c = '\x1c' || c = '\x1d' || c = '\x1e' || c = '\x1f' || c = '\x85' ||
  c = '\xa0' || c = ' ' || (0x2000 ≤ c.toNat && c.toNat ≤ 0x200a) ||
  c = ' ' || c = ' ' || c = ' ' || c = ' ' || c = '　'

/-- `str.strip()` on a character list. -/
def stripList (cs : List Char) : List Char :=
  ((cs.dropWhile isPySpace).reverse.dropWhile isPySpace).reverse

/-- `str.strip()`. -/
def pyStrip (s : String) : String := String.mk (stripList s.data)

/-- `str.lower()` (ASCII case folding, which is all the source relies on). -/
def pyLower (s : String) : String := String.mk (s.data.map Char.toLower)

/-- Code-point lexicographic strict order on character lists, the order
Python uses to compare `str` values. -/
def listCharLt : List Char → List Char → Bool
  | [], [] => false
  | [], _ :: _ => true
  | _ :: _, [] => false
  | a :: as, b :: bs => a.toNat < b.toNat || (a = b && listCharLt as bs)

/-- Python `str` `<` comparison. -/
def strLt (a b : String) : Bool := listCharLt a.data b.data

/-- Substring containment (`needle in haystack` on Python strings). -/
def isSubList (needle : List Char) : List Char → Bool
  | [] => needle.isEmpty
  | c :: rest => needle.isPrefixOf (c :: rest) || isSubList needle rest

/-- Python `needle in haystack` for strings. -/
def containsSub (haystack needle : String) : Bool :=
  isSubList needle.data haystack.data

/-- `str.startswith` (list-based so that kernel reduction can evaluate
it). -/
def pyStartsWith (s pre : String) : Bool := pre.data.isPrefixOf s.data

/-- `str.endswith`. -/
def pyEndsWith (s suf : String) : Bool := suf.data.isSuffixOf s.data

/-- `sep.join(parts)`. -/
def joinSep (sep : String) : List String → String
  | [] => ""
  | [x] => x
  | x :: y :: rest => x ++ sep ++ joinSep sep (y :: rest)

/-- `str.split(sep)` for a one-character separator; keeps empty parts,
`"".split(sep) == ['']`. -/
def splitOnChar (sep : Char) : List Char → List (List Char)
  | [] => [[]]
  | c :: cs =>
    match splitOnChar sep cs with
    | [] => [[]]
    | p :: ps => if c = sep then [] :: p :: ps else (c :: p) :: ps

/-- `str.split(sep)` on strings. -/
def pySplit (s : String) (sep : Char) : List String :=
  (splitOnChar sep s.data).map String.mk

/-- Worker for `str.split()` with no argument: split on whitespace runs,
discarding empty words.  `cur` is the current word accumulated in reverse. -/
def pyWordsGo (cur : List Char) : List Char → List (List Char)
  | [] => if cur.isEmpty then [] else [cur.reverse]
  | c :: cs =>
    if isPySpace c then
      if cur.isEmpty then pyWordsGo [] cs else cur.reverse :: pyWordsGo [] cs
    else pyWordsGo (c :: cur) cs

/-- `str.split()` with no argument. -/
def pyWords (s : String) : List String := (pyWordsGo [] s.data).map String.mk

/-- The Unicode decimal digits (category `Nd`), the class Python
`re` matches for `\\d` in `str` patterns and the class on which `int()`
accepts a digit character; table generated from the Unicode data CPython
ships. -/
def isNdDigit (c : Char) : Bool :=
  let n := c.toNat
  if n ≤ 0x39 then decide (0x30 ≤ n)
  else if n ≤ 0x669 then decide (0x660 ≤ n)
  else if n ≤ 0x6f9 then decide (0x6f0 ≤ n)
  else if n ≤ 0x7c9 then decide (0x7c0 ≤ n)
  else if n ≤ 0x96f then decide (0x966 ≤ n)
  else if n ≤ 0x9ef then decide (0x9e6 ≤ n)
  else if n ≤ 0xa6f then decide (0xa66 ≤ n)
  else if n ≤ 0xaef then decide (0xae6 ≤ n)
  else if n ≤ 0xb6f then decide (0xb66 ≤ n)
  else if n ≤ 0xbef then decide (0xbe6 ≤ n)
  else if n ≤ 0xc6f then decide (0xc66 ≤ n)
  else if n ≤ 0xcef then decide (0xce6 ≤ n)
  else if n ≤ 0xd6f then decide (0xd66 ≤ n)
  else if n ≤ 0xdef then decide (0xde6 ≤ n)
  else if n ≤ 0xe59 then decide (0xe50 ≤ n)
  else if n ≤ 0xed9 then decide (0xed0 ≤ n)
  else if n ≤ 0xf29 then decide (0xf20 ≤ n)
  else if n ≤ 0x1049 then decide (0x1040 ≤ n)
  else if n ≤ 0x1099 then decide (0x1090 ≤ n)
  else if n ≤ 0x17e9 then decide (0x17e0 ≤ n)
  else if n ≤ 0x1819 then decide (0x1810 ≤ n)
  else if n ≤ 0x194f then decide (0x1946 ≤ n)
  else if n ≤ 0x19d9 then decide (0x19d0 ≤ n)
  else if n ≤ 0x1a89 then decide (0x1a80 ≤ n)
  else if n ≤ 0x1a99 then decide (0x1a90 ≤ n)
  else if n ≤ 0x1b59 then decide (0x1b50 ≤ n)
  else if n ≤ 0x1bb9 then decide (0x1bb0 ≤ n)
  else if n ≤ 0x1c49 then decide (0x1c40 ≤ n)
  else if n ≤ 0x1c59 then decide (0x1c50 ≤ n)
  else if n ≤ 0xa629 then decide (0xa620 ≤ n)
  else if n ≤ 0xa8d9 then decide (0xa8d0 ≤ n)
  else if n ≤ 0xa909 then decide (0xa900 ≤ n)
  else if n ≤ 0xa9d9 then decide (0xa9d0 ≤ n)
  else if n ≤ 0xa9f9 then decide (0xa9f0 ≤ n)
  else if n ≤ 0xaa59 then decide (0xaa50 ≤ n)
  else if n ≤ 0xabf9 then decide (0xabf0 ≤ n)
  else if n ≤ 0xff19 then decide (0xff10 ≤ n)
  else if n ≤ 0x104a9 then decide (0x104a0 ≤ n)
  else if n ≤ 0x10d39 then decide (0x10d30 ≤ n)
  else if n ≤ 0x1106f then decide (0x11066 ≤ n)
  else if n ≤ 0x110f9 then decide (0x110f0 ≤ n)
  else if n ≤ 0x1113f then decide (0x11136 ≤ n)
  else if n ≤ 0x111d9 then decide (0x111d0 ≤ n)
  else if n ≤ 0x112f9 then decide (0x112f0 ≤ n)
  else if n ≤ 0x11459 then decide (0x11450 ≤ n)
  else if n ≤ 0x114d9 then decide (0x114d0 ≤ n)
  else if n ≤ 0x11659 then decide (0x11650 ≤ n)
  else if n ≤ 0x116c9 then decide (0x116c0 ≤ n)
  else if n ≤ 0x11739 then decide (0x11730 ≤ n)
  else if n ≤ 0x118e9 then decide (0x118e0 ≤ n)
  else if n ≤ 0x11959 then decide (0x11950 ≤ n)
  else if n ≤ 0x11c59 then decide (0x11c50 ≤ n)
  else if n ≤ 0x11d59 then decide (0x11d50 ≤ n)
  else if n ≤ 0x11da9 then decide (0x11da0 ≤ n)
  else if n ≤ 0x16a69 then decide (0x16a60 ≤ n)
  else if n ≤ 0x16ac9 then decide (0x16ac0 ≤ n)
  else if n ≤ 0x16b59 then decide (0x16b50 ≤ n)
  else if n ≤ 0x1d7ff then decide (0x1d7ce ≤ n)
  else if n ≤ 0x1e149 then decide (0x1e140 ≤ n)
  else if n ≤ 0x1e2f9 then decide (0x1e2f0 ≤ n)
  else if n ≤ 0x1e959 then decide (0x1e950 ≤ n)
  else if n ≤ 0x1fbf9 then decide (0x1fbf0 ≤ n)
  else false

/-- The characters Python `str.isdigit()` accepts: the decimal digits
plus the characters with `Numeric_Type=Digit`, such as superscript and
circled digits; table generated from the Unicode data CPython ships. -/
def pyIsDigitChar (c : Char) : Bool :=
  let n := c.toNat
  if n ≤ 0x39 then decide (0x30 ≤ n)
  else if n ≤ 0xb3 then decide (0xb2 ≤ n)
  else if n ≤ 0xb9 then decide (0xb9 ≤ n)
  else if n ≤ 0x669 then decide (0x660 ≤ n)
  else if n ≤ 0x6f9 then decide (0x6f0 ≤ n)
  else if n ≤ 0x7c9 then decide (0x7c0 ≤ n)
  else if n ≤ 0x96f then decide (0x966 ≤ n)
  else if n ≤ 0x9ef then decide (0x9e6 ≤ n)
  else if n ≤ 0xa6f then decide (0xa66 ≤ n)
  else if n ≤ 0xaef then decide (0xae6 ≤ n)
  else if n ≤ 0xb6f then decide (0xb66 ≤ n)
  else if n ≤ 0xbef then decide (0xbe6 ≤ n)
  else if n ≤ 0xc6f then decide (0xc66 ≤ n)
  else if n ≤ 0xcef then decide (0xce6 ≤ n)
  else if n ≤ 0xd6f then decide (0xd66 ≤ n)
  else if n ≤ 0xdef then decide (0xde6 ≤ n)
  else if n ≤ 0xe59 then decide (0xe50 ≤ n)
  else if n ≤ 0xed9 then decide (0xed0 ≤ n)
  else if n ≤ 0xf29 then decide (0xf20 ≤ n)
  else if n ≤ 0x1049 then decide (0x1040 ≤ n)
  else if n ≤ 0x1099 then decide (0x1090 ≤ n)
  else if n ≤ 0x1371 then decide (0x1369 ≤ n)
  else if n ≤ 0x17e9 then decide (0x17e0 ≤ n)
  else if n ≤ 0x1819 then decide (0x1810 ≤ n)
  else if n ≤ 0x194f then decide (0x1946 ≤ n)
  else if n ≤ 0x19da then decide (0x19d0 ≤ n)
  else if n ≤ 0x1a89 then decide (0x1a80 ≤ n)
  else if n ≤ 0x1a99 then decide (0x1a90 ≤ n)
  else if n ≤ 0x1b59 then decide (0x1b50 ≤ n)
  else if n ≤ 0x1bb9 then decide (0x1bb0 ≤ n)
  else if n ≤ 0x1c49 then decide (0x1c40 ≤ n)
  else if n ≤ 0x1c59 then decide (0x1c50 ≤ n)
  else if n ≤ 0x2070 then decide (0x2070 ≤ n)
  else if n ≤ 0x2079 then decide (0x2074 ≤ n)
  else if n ≤ 0x2089 then decide (0x2080 ≤ n)
  else if n ≤ 0x2468 then decide (0x2460 ≤ n)
  else if n ≤ 0x247c then decide (0x2474 ≤ n)
  else if n ≤ 0x2490 then decide (0x2488 ≤ n)
  else if n ≤ 0x24ea then decide (0x24ea ≤ n)
  else if n ≤ 0x24fd then decide (0x24f5 ≤ n)
  else if n ≤ 0x24ff then decide (0x24ff ≤ n)
  else if n ≤ 0x277e then decide (0x2776 ≤ n)
  else if n ≤ 0x2788 then decide (0x2780 ≤ n)
  else if n ≤ 0x2792 then decide (0x278a ≤ n)
  else if n ≤ 0xa629 then decide (0xa620 ≤ n)
  else if n ≤ 0xa8d9 then decide (0xa8d0 ≤ n)
  else if n ≤ 0xa909 then decide (0xa900 ≤ n)
  else if n ≤ 0xa9d9 then decide (0xa9d0 ≤ n)
  else if n ≤ 0xa9f9 then decide (0xa9f0 ≤ n)
  else if n ≤ 0xaa59 then decide (0xaa50 ≤ n)
  else if n ≤ 0xabf9 then decide (0xabf0 ≤ n)
  else if n ≤ 0xff19 then decide (0xff10 ≤ n)
  else if n ≤ 0x104a9 then decide (0x104a0 ≤ n)
  else if n ≤ 0x10a43 then decide (0x10a40 ≤ n)
  else if n ≤ 0x10d39 then decide (0x10d30 ≤ n)
  else if n ≤ 0x10e68 then decide (0x10e60 ≤ n)
  else if n ≤ 0x1105a then decide (0x11052 ≤ n)
  else if n ≤ 0x1106f then decide (0x11066 ≤ n)
  else if n ≤ 0x110f9 then decide (0x110f0 ≤ n)
  else if n ≤ 0x1113f then decide (0x11136 ≤ n)
  else if n ≤ 0x111d9 then decide (0x111d0 ≤ n)
  else if n ≤ 0x112f9 then decide (0x112f0 ≤ n)
  else if n ≤ 0x11459 then decide (0x11450 ≤ n)
  else if n ≤ 0x114d9 then decide (0x114d0 ≤ n)
  else if n ≤ 0x11659 then decide (0x11650 ≤ n)
  else if n ≤ 0x116c9 then decide (0x116c0 ≤ n)
  else if n ≤ 0x11739 then decide (0x11730 ≤ n)
  else if n ≤ 0x118e9 then decide (0x118e0 ≤ n)
  else if n ≤ 0x11959 then decide (0x11950 ≤ n)
  else if n ≤ 0x11c59 then decide (0x11c50 ≤ n)
  else if n ≤ 0x11d59 then decide (0x11d50 ≤ n)
  else if n ≤ 0x11da9 then decide (0x11da0 ≤ n)
  else if n ≤ 0x16a69 then decide (0x16a60 ≤ n)
  else if n ≤ 0x16ac9 then decide (0x16ac0 ≤ n)
  else if n ≤ 0x16b59 then decide (0x16b50 ≤ n)
  else if n ≤ 0x1d7ff then decide (0x1d7ce ≤ n)
  else if n ≤ 0x1e149 then decide (0x1e140 ≤ n)
  else if n ≤ 0x1e2f9 then decide (0x1e2f0 ≤ n)
  else if n ≤ 0x1e959 then decide (0x1e950 ≤ n)
  else if n ≤ 0x1f10a then decide (0x1f100 ≤ n)
  else if n ≤ 0x1fbf9 then decide (0x1fbf0 ≤ n)
  else false

/-- The decimal value of a digit in category `Nd` (each `Nd` block runs
over the values `0` to `9` in order); `0` off that class. -/
def ndVal (c : Char) : Nat :=
  let n := c.toNat
  if n ≤ 0x39 then n - 0x30
  else if n ≤ 0x669 then n - 0x660
  else if n ≤ 0x6f9 then n - 0x6f0
  else if n ≤ 0x7c9 then n - 0x7c0
  else if n ≤ 0x96f then n - 0x966
  else if n ≤ 0x9ef then n - 0x9e6
  else if n ≤ 0xa6f then n - 0xa66
  else if n ≤ 0xaef then n - 0xae6
  else if n ≤ 0xb6f then n - 0xb66
  else if n ≤ 0xbef then n - 0xbe6
  else if n ≤ 0xc6f then n - 0xc66
  else if n ≤ 0xcef then n - 0xce6
  else if n ≤ 0xd6f then n - 0xd66
  else if n ≤ 0xdef then n - 0xde6
  else if n ≤ 0xe59 then n - 0xe50
  else if n ≤ 0xed9 then n - 0xed0
  else if n ≤ 0xf29 then n - 0xf20
  else if n ≤ 0x1049 then n - 0x1040
  else if n ≤ 0x1099 then n - 0x1090
  else if n ≤ 0x17e9 then n - 0x17e0
  else if n ≤ 0x1819 then n - 0x1810
  else if n ≤ 0x194f then n - 0x1946
  else if n ≤ 0x19d9 then n - 0x19d0
  else if n ≤ 0x1a89 then n - 0x1a80
  else if n ≤ 0x1a99 then n - 0x1a90
  else if n ≤ 0x1b59 then n - 0x1b50
  else if n ≤ 0x1bb9 then n - 0x1bb0
  else if n ≤ 0x1c49 then n - 0x1c40
  else if n ≤ 0x1c59 then n - 0x1c50
  else if n ≤ 0xa629 then n - 0xa620
  else if n ≤ 0xa8d9 then n - 0xa8d0
  else if n ≤ 0xa909 then n - 0xa900
  else if n ≤ 0xa9d9 then n - 0xa9d0
  else if n ≤ 0xa9f9 then n - 0xa9f0
  else if n ≤ 0xaa59 then n - 0xaa50
  else if n ≤ 0xabf9 then n - 0xabf0
  else if n ≤ 0xff19 then n - 0xff10
  else if n ≤ 0x104a9 then n - 0x104a0
  else if n ≤ 0x10d39 then n - 0x10d30
  else if n ≤ 0x1106f then n - 0x11066
  else if n ≤ 0x110f9 then n - 0x110f0
  else if n ≤ 0x1113f then n - 0x11136
  else if n ≤ 0x111d9 then n - 0x111d0
  else if n ≤ 0x112f9 then n - 0x112f0
  else if n ≤ 0x11459 then n - 0x11450
  else if n ≤ 0x114d9 then n - 0x114d0
  else if n ≤ 0x11659 then n - 0x11650
  else if n ≤ 0x116c9 then n - 0x116c0
  else if n ≤ 0x11739 then n - 0x11730
  else if n ≤ 0x118e9 then n - 0x118e0
  else if n ≤ 0x11959 then n - 0x11950
  else if n ≤ 0x11c59 then n - 0x11c50
  else if n ≤ 0x11d59 then n - 0x11d50
  else if n ≤ 0x11da9 then n - 0x11da0
  else if n ≤ 0x16a69 then n - 0x16a60
  else if n ≤ 0x16ac9 then n - 0x16ac0
  else if n ≤ 0x16b59 then n - 0x16b50
  else if n ≤ 0x1d7ff then (n - 0x1d7ce) % 10
  else if n ≤ 0x1e149 then n - 0x1e140
  else if n ≤ 0x1e2f9 then n - 0x1e2f0
  else if n ≤ 0x1e959 then n - 0x1e950
  else if n ≤ 0x1fbf9 then n - 0x1fbf0
  else 0

/-- `str.isdigit()`: nonempty and every character a digit in the
`Numeric_Type=Digit/Decimal` sense. -/
def pyIsDigit (s : String) : Bool :=
  !s.data.isEmpty && s.data.all pyIsDigitChar

/-- `int(s)` for a string of decimal (`Nd`) digits, any script. -/
def strToNat (s : String) : Nat :=
  s.data.foldl (fun n c => n * 10 + ndVal c) 0

/-- Munch a Python digit group with underscores allowed between digits
(`123`, `1_000`); `none` if the input does not start with a digit, else the
remainder after the maximal digit group. -/
def munchDigitsU : List Char → Option (List Char)
  | [] => none
  | c :: cs => if isNdDigit c then some (digTail cs) else none
where
  /-- Remainder after the rest of a digit group already begun. -/
  digTail : List Char → List Char
    | [] => []
    | c :: cs =>
      if isNdDigit c then digTail cs
      else if c = '_' then
        match cs with
        | d :: ds => if isNdDigit d then digTail ds else c :: cs
        | [] => [c]
      else c :: cs

/-- `int(s)`, returning `none` where Python `int()` raises `ValueError`:
optional surrounding whitespace, an optional sign, then a digit group. -/
def pyToIntOpt (s : String) : Option Int :=
  let cs := stripList s.data
  let (neg, cs) :=
    match cs with
    | '+' :: rest => (false, rest)
    | '-' :: rest => (true, rest)
    | _ => (false, cs)
  match munchDigitsU cs with
  | some [] =>
    let n : Int := Int.ofNat (strToNat (String.mk (cs.filter (· ≠ '_'))))
    some (if neg then -n else n)
  | _ => none

/-- Mantissa of the Python `float()` grammar: `digits [ '.' [digits] ]` or
`'.' digits`; returns the remainder. -/
def floatMantissa (cs : List Char) : Option (List Char) :=
  match munchDigitsU cs with
  | some r =>
    match r with
    | '.' :: r2 =>
      match munchDigitsU r2 with
      | some r3 => some r3
      | none => some r2
    | _ => some r
  | none =>
    match cs with
    | '.' :: r2 => munchDigitsU r2
    | _ => none

/-- Optional exponent of the `float()` grammar. -/
def floatExponent (cs : List Char) : Option (List Char) :=
  match cs with
  | [] => some []
  | c :: rest =>
    if c = 'e' || c = 'E' then
      let rest2 :=
        match rest with
        | '+' :: r => r
        | '-' :: r => r
        | _ => rest
      munchDigitsU rest2
    else some cs

/-- Case-insensitive equality with an ASCII keyword. -/
def ciEq (cs : List Char) (kw : String) : Bool :=
  cs.map Char.toLower = kw.data

/-- Whether Python `float(s)` succeeds. -/
def isPyFloat (s : String) : Bool :=
  let cs := stripList s.data
  let cs :=
    match cs with
    | '+' :: rest => rest
    | '-' :: rest => rest
    | _ => cs
  if ciEq cs "inf" || ciEq cs "infinity" || ciEq cs "nan" then true
  else
    match floatMantissa cs with
    | some r =>
      match floatExponent r with
      | some [] => true
      | _ => false
    | none => false

/-- Insertion-order deduplication; models building a Python `set` where only
membership and size are consumed. -/
def dedupAcc {α : Type} [DecidableEq α] (seen : List α) : List α → List α
  | [] => []
  | x :: xs =>
    if seen.any (· = x) then dedupAcc seen xs
    else x :: dedupAcc (x :: seen) xs

/-- Models `set(l)` (membership / cardinality view). -/
def pySet {α : Type} [DecidableEq α] (l : List α) : List α := dedupAcc [] l

/-! ### Insertion-ordered dictionaries (Python `dict`) -/

/-- `d.get(k)` on an insertion-ordered dict. -/
def alookup {α : Type} (m : List (String × α)) (k : String) : Option α :=
  match m.find? (fun kv => kv.1 = k) with
  | some kv => some kv.2
  | none => none

/-- `d[k] = v`: update in place when the key exists (preserving order), else
append (Python dicts preserve insertion order). -/
def aset {α : Type} (m : List (String × α)) (k : String) (v : α) :
    List (String × α) :=
  match m with
  | [] => [(k, v)]
  | (k0, v0) :: rest =>
    if k0 = k then (k0, v) :: rest else (k0, v0) :: aset rest k v

/-- Apply `f` to the value stored at `k`, leaving the dict unchanged when the
key is absent. -/
def amodify {α : Type} (m : List (String × α)) (k : String) (f : α → α) :
    List (String × α) :=
  m.map (fun kv => if kv.1 = k then (kv.1, f kv.2) else kv)

/-- A respondent row: column identifier to raw cell value; `none` models a
pandas `NaN` (missing column or missing cell). -/
abbrev Row := List (String × Option String)

/-- `row.get(col)`: a missing key and a `NaN` cell both yield `none`. -/
def rowGet (row : Row) (key : String) : Option String :=
  match alookup row key with
  | some v => v
  | none => none

/-! ### Regular-expression engine

Every regular expression in the source is a plain sequence of
character-class atoms with greedy quantifiers (no alternation and, except
where handled by dedicated scanners below, no capture groups), so Python
`re` semantics on them reduce to greedy matching with backtracking, which is
what `matchSeq` implements: each atom tries its longest feasible consumption
first and backtracks on failure of the rest of the sequence. -/

/-- One pattern atom: a character class repeated between `lo` and `hi` times
(`hi = none` means unbounded). -/
structure RAtom where
  cls : Char → Bool
  lo : Nat
  hi : Option Nat

/-- A pattern: a sequence of atoms. -/
abbrev RPat := List RAtom

/-- Length of the maximal prefix of `cs` inside the class `p`. -/
def clsRun (p : Char → Bool) : List Char → Nat
  | [] => 0
  | c :: cs => if p c then clsRun p cs + 1 else 0

/-- Remainders of `cs` after the atom consumes an admissible number of
characters, longest consumption first (the greedy order). -/
def atomRems (a : RAtom) (cs : List Char) : List (List Char) :=
  let run := clsRun a.cls cs
  let top := match a.hi with
    | none => run
    | some h => min run h
  if top < a.lo then []
  else (List.range (top + 1 - a.lo)).map (fun j => cs.drop (top - j))

/-- Greedy backtracking match of a pattern against a prefix of `cs`,
returning the remainder after the first (leftmost-greedy) successful
assignment; with `atEnd` the match must also reach the end of the input
(a `$` anchor). -/
def matchSeq (atEnd : Bool) : RPat → List Char → Option (List Char)
  | [], cs => if atEnd then (if cs.isEmpty then some [] else none) else some cs
  | a :: pat, cs => (atomRems a cs).findSome? (fun r => matchSeq atEnd pat r)

/-- Worker for `re.sub(pat, repl, s)` with a plain-text replacement: scan
left to right, replacing leftmost non-overlapping matches.  `fuel` bounds
the recursion (any value of at least the input length is exact); the source
patterns cannot match the empty string, so the guard against a non-consuming
match never fires on them. -/
def subGo (pat : RPat) (repl : List Char) : Nat → List Char → List Char
  | _, [] => []
  | 0, cs => cs
  | Nat.succ fuel, c :: cs =>
    match matchSeq false pat (c :: cs) with
    | some r =>
      if r.length < cs.length + 1 then repl ++ subGo pat repl fuel r
      else c :: subGo pat repl fuel cs
    | none => c :: subGo pat repl fuel cs

/-- `re.sub(pat, repl, s)` for a plain replacement string. -/
def reSubAll (pat : RPat) (repl : String) (s : String) : String :=
  String.mk (subGo pat repl.data s.data.length s.data)

/-- `re.sub` for a pattern anchored at the start (`^...`): in the default
single-line mode it can only match once, at position zero. -/
def reSubStart (pat : RPat) (repl : String) (s : String) : String :=
  match matchSeq false pat s.data with
  | some r => String.mk (repl.data ++ r)
  | none => s

/-- `re.sub` for a pattern anchored at the end (`...$`): replace the
leftmost match that reaches the end of the input. -/
def subEndGo (pat : RPat) (repl : List Char) : List Char → List Char
  | [] => if (matchSeq true pat []).isSome then repl else []
  | c :: cs =>
    match matchSeq true pat (c :: cs) with
    | some _ => repl
    | none => c :: subEndGo pat repl cs

/-- `re.sub(pat-with-dollar-anchor, repl, s)`. -/
def reSubEnd (pat : RPat) (repl : String) (s : String) : String :=
  String.mk (subEndGo pat repl.data s.data)

/-- Worker for `re.split`: cut the input at each leftmost non-overlapping
match (the source's split pattern cannot match the empty string).  `acc`
holds the current segment in reverse. -/
def splitGo (pat : RPat) (acc : List Char) : Nat → List Char → List (List Char)
  | _, [] => [acc.reverse]
  | 0, cs => [acc.reverse ++ cs]
  | Nat.succ fuel, c :: cs =>
    match matchSeq false pat (c :: cs) with
    | some r =>
      if r.length < cs.length + 1 then acc.reverse :: splitGo pat [] fuel r
      else splitGo pat (c :: acc) fuel cs
    | none => splitGo pat (c :: acc) fuel cs

/-- `re.split(pat, s)`. -/
def reSplit (pat : RPat) (s : String) : List String :=
  (splitGo pat [] s.data.length s.data).map String.mk

/-- `re.match(pat, s)` as a Boolean, for a pattern ending in `$`. -/
def reFullMatch (pat : RPat) (s : String) : Bool :=
  (matchSeq true pat s.data).isSome

/-- Case-sensitive literal-character atom. -/
def lit (c : Char) : RAtom := ⟨fun x => x = c, 1, some 1⟩

/-- Literal-character atom under `re.IGNORECASE`. -/
def litCI (c : Char) : RAtom := ⟨fun x => x.toLower = c.toLower, 1, some 1⟩

/-- `p*`. -/
def star (p : Char → Bool) : RAtom := ⟨p, 0, none⟩

/-- `p+`. -/
def plus (p : Char → Bool) : RAtom := ⟨p, 1, none⟩

/-- `p?`. -/
def opt (p : Char → Bool) : RAtom := ⟨p, 0, some 1⟩

/-- `p{lo,hi}`. -/
def rep (p : Char → Bool) (lo hi : Nat) : RAtom := ⟨p, lo, some hi⟩

/-- A literal string as a case-sensitive atom sequence. -/
def lits (s : String) : RPat := s.data.map lit

/-- A literal string as an `re.IGNORECASE` atom sequence. -/
def litsCI (s : String) : RPat := s.data.map litCI

/-! ### HTML entity decoding and escaping -/

/-- Entity table used by the model of Python `html.unescape`: the names the
survey exports actually contain.  Longer names first, mirroring the stdlib's
longest-match resolution; names both with and without the trailing
semicolon resolve, as in the html5 table. -/
def ENTITY_TABLE : List (String × Char) :=
  [("&quot;", '"'), ("&nbsp;", '\xa0'), ("&amp;", '&'), ("&lt;", '<'),
   ("&gt;", '>'), ("&#39;", '\x27'), ("&quot", '"'), ("&nbsp", '\xa0'),
   ("&amp", '&'), ("&lt", '<'), ("&gt", '>')]

/-- Modelled from the spec: "Decodes embedded markup entities" — the
behaviour of the external `html.unescape` (Python stdlib, outside this
repository), restricted to the named references of `ENTITY_TABLE`.  The
scan replaces each leftmost entity occurrence and continues after the
replacement, exactly as the stdlib substitution does; text without `&` is
returned unchanged. -/
def pyUnescape (s : String) : String := String.mk (go s.data.length s.data)
where
  /-- Try the entity table at this position. -/
  tryEntity (cs : List Char) : Option (Char × List Char) :=
    ENTITY_TABLE.findSome? (fun (name, ch) =>
      if name.data.isPrefixOf cs then some (ch, cs.drop name.length) else none)
  go : Nat → List Char → List Char
    | _, [] => []
    | 0, cs => cs
    | Nat.succ fuel, c :: cs =>
      if c = '&' then
        match tryEntity (c :: cs) with
        | some (ch, rest) => ch :: go fuel rest
        | none => c :: go fuel cs
      else c :: go fuel cs

/-- Python `html.escape(s, quote=True)`: the chained `str.replace` calls of
the stdlib collapse to this per-character expansion, since the ampersands
introduced by later replacements are never re-examined. -/
def pyEscape (s : String) : String :=
  String.mk (s.data.flatMap escChar)
where
  escChar (c : Char) : List Char :=
    if c = '&' then "&amp;".data
    else if c = '<' then "&lt;".data
    else if c = '>' then "&gt;".data
    else if c = '"' then "&quot;".data
    else if c = '\x27' then "&#x27;".data
    else [c]

/-! ### Core value helpers (`safe_str`, `safe_html`, `is_empty`) -/

/-- `safe_str(value)`: `''` for `NaN`/`None`, else the stripped string. -/
def safe_str (value : Option String) : String :=
  match value with
  | none => ""
  | some s => pyStrip s

/-- `safe_str` applied to a value already known to be a string. -/
def safe_strS (s : String) : String := pyStrip s

/-- `safe_html(value)`. -/
def safe_html (value : Option String) : String := pyEscape (safe_str value)

/-- `safe_html` on a plain string. -/
def safe_htmlS (s : String) : String := pyEscape (safe_strS s)

/-- `is_empty(value)`: `NaN`/`None` or blank after stripping. -/
def is_empty (value : Option String) : Bool :=
  match value with
  | none => true
  | some s => pyStrip s = ""

/-! ### Constants of the source -/

/-- `LONG_TEXT_THRESHOLD`. -/
def LONG_TEXT_THRESHOLD : Nat := 200
/-- `NUMERIC_CODE_MAX`. -/
def NUMERIC_CODE_MAX : Nat := 20
/-- `NUMERIC_CODE_RANGE_MIN`. -/
def NUMERIC_CODE_RANGE_MIN : Nat := 100
/-- `NUMERIC_CODE_RANGE_MAX`. -/
def NUMERIC_CODE_RANGE_MAX : Nat := 300
/-- `MULTI_VALUE_AVG_LENGTH_MAX`. -/
def MULTI_VALUE_AVG_LENGTH_MAX : Nat := 40
/-- `SHORT_VALUE_MAX_LENGTH`. -/
def SHORT_VALUE_MAX_LENGTH : Nat := 30

/-- `TIMING_SUFFIXES`. -/
def TIMING_SUFFIXES : List String :=
  ["_Page Submit", "_First Click", "_Last Click", "_Click Count",
   "_PageSubmit", "_FirstClick", "_LastClick", "_ClickCount"]

/-- `METADATA_COLUMNS`. -/
def METADATA_COLUMNS : List String :=
  ["StartDate", "EndDate", "Status", "IPAddress", "Progress",
   "Duration (in seconds)", "Finished", "RecordedDate", "ResponseId",
   "RecipientLastName", "RecipientFirstName", "RecipientEmail",
   "ExternalReference", "LocationLatitude", "LocationLongitude",
   "DistributionChannel", "UserLanguage", "Browser", "Version",
   "Operating System", "Resolution", "DeviceType", "Q_TotalDuration",
   "Q_URL", "Q_BallotBoxStuffing", "Q_RelevantIDDuplicate"]

/-- `NUMERIC_QUESTION_KEYWORDS`. -/
def NUMERIC_QUESTION_KEYWORDS : List String :=
  ["number", "count", "total", "how many", "percent", "%",
   "year", "age", "score", "gpa", "mcat", "credits", "hours",
   "fee", "tuition", "salary", "amount", "$", "usd", "dollar",
   "phone", "zip", "code", "id", "size", "rate", "ratio",
   "enrollment", "residents", "men", "women", "graduates",
   "indebtedness", "funds", "faculty", "research", "nih",
   "rank", "rating", "scale", "slider", "nps", "score"]

/-- `FILE_EXTENSIONS`. -/
def FILE_EXTENSIONS : List String :=
  [".pdf", ".doc", ".docx", ".xls", ".xlsx", ".jpg", ".jpeg",
   ".png", ".gif", ".mp3", ".mp4", ".zip", ".csv", ".txt"]

/-- The twelve `BOILERPLATE_PATTERNS`, compiled with `re.IGNORECASE` as in
the source; each is a plain atom sequence. -/
def BOILERPLATE_PATTERNS : List RPat :=
  [ [star isPySpace] ++ litsCI "See Email Titled" ++
      [star isPySpace, lit '"', star (fun c => c ≠ '"'), lit '"',
       star (fun c => c ≠ '.'), opt (fun c => c = '.'), star isPySpace],
    [star isPySpace] ++ litsCI "See Email Titled" ++
      [star (fun c => c ≠ '.'), opt (fun c => c = '.'), star isPySpace],
    [star isPySpace] ++ litsCI "This data is rolled over from last year" ++
      [opt (fun c => c = '.'), star isPySpace],
    [star isPySpace] ++
      litsCI "This question is used in the Rankings calculation" ++
      [opt (fun c => c = '.'), star isPySpace],
    [star isPySpace] ++ litsCI "RESPONSE NEEDED" ++ [star isPySpace],
    [star isPySpace] ++ litsCI "ACTION NEEDED" ++ [star isPySpace],
    [star isPySpace] ++ litsCI "DUE " ++
      [rep isNdDigit 1 2, lit '/', rep isNdDigit 1 2,
       star (fun c => c ≠ '.'), opt (fun c => c = '.'), star isPySpace],
    [star isPySpace] ++ litsCI "for PDF of Results from Last Year" ++
      [opt (fun c => c = '.'), star isPySpace],
    [star isPySpace, lit '-', star isPySpace] ++
      litsCI "U.S. News Best Medical Schools Survey" ++ [star isPySpace],
    [star isPySpace] ++ litsCI "U.S. News Best Medical Schools Survey" ++
      [star isPySpace],
    [star isPySpace] ++ litsCI "Click to write the question text" ++
      [star isPySpace],
    [star isPySpace] ++ litsCI "Please answer the following" ++
      [opt (fun c => c = '.'), star isPySpace] ]

/-! ### Text normalisation -/

/-- The tag-stripping pattern `<[^>]+>`. -/
def TAG_PAT : RPat := [lit '<', plus (fun c => c ≠ '>'), lit '>']

/-- The whitespace-collapsing pattern `\s+`. -/
def WS_PAT : RPat := [plus isPySpace]

/-- `clean_html_text`: entity decode, tag strip, boilerplate removal,
whitespace collapse and strip. -/
def clean_html_text (text : String) : String :=
  if text = "" then ""
  else
    let t := pyUnescape text
    let t := reSubAll TAG_PAT " " t
    let t := BOILERPLATE_PATTERNS.foldl (fun acc pat => reSubAll pat " " acc) t
    pyStrip (reSubAll WS_PAT " " t)

/-- `^\s*-\s*` / `\s*-\s*$`. -/
def DASH_EDGE_PAT : RPat := [star isPySpace, lit '-', star isPySpace]

/-- `\s*-\s*-\s*`. -/
def DOUBLE_DASH_PAT : RPat :=
  [star isPySpace, lit '-', star isPySpace, lit '-', star isPySpace]

/-- `\n{2,}`. -/
def NL2_PAT : RPat := [⟨fun c => c = '\n', 2, none⟩]

/-- `\t+`. -/
def TAB_PAT : RPat := [plus (fun c => c = '\t')]

/-- `clean_question_text` (CSV header variant; `none` models a `NaN`
header cell). -/
def clean_question_text (text : Option String) : String :=
  match text with
  | none => ""
  | some t =>
    let t := BOILERPLATE_PATTERNS.foldl (fun acc pat => reSubAll pat " " acc) t
    let t := reSubStart DASH_EDGE_PAT "" t
    let t := reSubEnd DASH_EDGE_PAT "" t
    let t := reSubAll DOUBLE_DASH_PAT " " t
    let t := reSubAll NL2_PAT " " t
    let t := reSubAll TAB_PAT " " t
    pyStrip (joinSep " " (pyWords t))

/-- Match `(\d{4})\s*-\s*(\d{4})` at the head of the input, returning the
two captured digit groups and the remainder; since both groups are of fixed
width and the separator characters are disjoint from the classes around
them, the greedy assignment is forced. -/
def dateRangeAt (cs : List Char) : Option (List Char × List Char × List Char) :=
  let g1 := cs.take 4
  if g1.length = 4 && g1.all isNdDigit then
    let r2 := (cs.drop 4).dropWhile isPySpace
    match r2 with
    | '-' :: r3 =>
      let r4 := r3.dropWhile isPySpace
      let g2 := r4.take 4
      if g2.length = 4 && g2.all isNdDigit then some (g1, g2, r4.drop 4)
      else none
    | _ => none
  else none

/-- Worker for the date-range protection substitution
`re.sub(r'(\d{4})\s*-\s*(\d{4})', r'\1__DATERANGE__\2', s)`. -/
def dateRangeGo : Nat → List Char → List Char
  | _, [] => []
  | 0, cs => cs
  | Nat.succ fuel, c :: cs =>
    match dateRangeAt (c :: cs) with
    | some (g1, g2, rest) =>
      g1 ++ "__DATERANGE__".data ++ g2 ++ dateRangeGo fuel rest
    | none => c :: dateRangeGo fuel cs

/-- Protect year ranges such as `2024 - 2025` before splitting on dashes. -/
def dateRangeProtect (s : String) : String :=
  String.mk (dateRangeGo s.data.length s.data)

/-- `str.replace(needle, repl)` (all occurrences, left to right). -/
def replaceAllGo (needle repl : List Char) : Nat → List Char → List Char
  | _, [] => []
  | 0, cs => cs
  | Nat.succ fuel, c :: cs =>
    if needle.isPrefixOf (c :: cs) && !needle.isEmpty then
      repl ++ replaceAllGo needle repl fuel ((c :: cs).drop needle.length)
    else c :: replaceAllGo needle repl fuel cs

/-- `str.replace` on strings. -/
def pyReplace (s needle repl : String) : String :=
  String.mk (replaceAllGo needle.data repl.data s.data.length s.data)

/-- The matrix-label split pattern `\s+-\s+`. -/
def SPLIT_DASH_PAT : RPat := [plus isPySpace, lit '-', plus isPySpace]

/-- `extract_matrix_labels`: split a CSV header into
`(base question text, row label, column label)`. -/
def extract_matrix_labels (text : Option String) :
    String × Option String × Option String :=
  match text with
  | none => ("", none, none)
  | some _ =>
    let cleaned := clean_question_text text
    let prot := dateRangeProtect cleaned
    let parts0 := reSplit SPLIT_DASH_PAT prot
    let parts := parts0.map (fun p => pyReplace p "__DATERANGE__" " - ")
    if 3 ≤ parts.length then
      (joinSep " - " (parts.take (parts.length - 2)),
       some (parts.getD (parts.length - 2) ""),
       some (parts.getD (parts.length - 1) ""))
    else if parts.length = 2 then
      (parts.getD 0 "", some (parts.getD 1 ""), none)
    else (cleaned, none, none)

/-! ### Sorting helpers -/

/-- `contains_any(text, keywords)`. -/
def contains_any (text : String) (keywords : List String) : Bool :=
  keywords.any (fun kw => containsSub (pyLower text) kw)

/-- `sort_row_key`: numeric keys sort first by value, then alphabetic keys
case-insensitively. -/
def sort_row_key (key : String) : Nat × Nat × String :=
  if pyIsDigit key then (0, strToNat key, "") else (1, 0, pyLower key)

/-- Strict order induced by `sort_row_key` (Python tuple comparison). -/
def rowKeyLt (a b : String) : Bool :=
  let ka := sort_row_key a
  let kb := sort_row_key b
  ka.1 < kb.1 ||
    (ka.1 = kb.1 &&
      (ka.2.1 < kb.2.1 || (ka.2.1 = kb.2.1 && strLt ka.2.2 kb.2.2)))

/-- Stable insertion into a sorted list: `x` goes before the first element
not strictly below it, preserving the relative order of equal keys as
Python's stable `sorted` does. -/
def insertLt {α : Type} (ltf : α → α → Bool) (x : α) : List α → List α
  | [] => [x]
  | y :: ys => if ltf y x then y :: insertLt ltf x ys else x :: y :: ys

/-- Stable sort by a strict comparison. -/
def sortLt {α : Type} (ltf : α → α → Bool) : List α → List α
  | [] => []
  | x :: xs => insertLt ltf x (sortLt ltf xs)

/-- `sorted(keys, key=sort_row_key)`. -/
def sortRowKeys (keys : List String) : List String := sortLt rowKeyLt keys

/-- `sorted(strings)` (code-point order). -/
def sortStrings (l : List String) : List String := sortLt strLt l

/-! ### Numeric-shape helpers -/

/-- `is_numeric_value` on a string (every call site passes a string). -/
def is_numeric_valueS (value : String) : Bool :=
  let val := safe_strS value
  if val = "" then false
  else
    let cleaned := String.mk
      (stripList (val.data.filter (fun c => c ≠ ',' && c ≠ '$' && c ≠ '%')))
    isPyFloat cleaned

/-- `values_are_numeric_data`; the float-ratio thresholds of the source are
expressed exactly over naturals (`ratio ≥ 0.7` as `10·count ≥ 7·n`, the
small counts involved making the float comparison exact). -/
def values_are_numeric_data (values : List String) : Bool :=
  if values.isEmpty then false
  else
    let non_empty := values.filter (fun v => safe_strS v ≠ "")
    if non_empty.isEmpty then false
    else
      let numeric_count := (non_empty.filter is_numeric_valueS).length
      if 10 * numeric_count ≥ 7 * non_empty.length then true
      else
        let unique_values := pySet (non_empty.map safe_strS)
        if unique_values.length > 5 && 2 * numeric_count ≥ non_empty.length
        then true
        else false

/-- The date shape `^\d{1,2}[/\-]\d{1,2}[/\-]\d{2,4}$`. -/
def DATE_PAT : RPat :=
  [rep isNdDigit 1 2, ⟨fun c => c = '/' || c = '-', 1, some 1⟩,
   rep isNdDigit 1 2, ⟨fun c => c = '/' || c = '-', 1, some 1⟩,
   rep isNdDigit 2 4]

/-- `values_are_unique_data` (uniqueness ratio `> 0.5` as `2·u > n`,
pattern ratio `≥ 0.3` as `10·c ≥ 3·n`). -/
def values_are_unique_data (values : List String) : Bool :=
  if values.isEmpty then false
  else
    let non_empty := (values.map safe_strS).filter (fun v => v ≠ "")
    if non_empty.isEmpty then false
    else
      let unique_values := pySet non_empty
      if 2 * unique_values.length > non_empty.length then true
      else if unique_values.length > 5 &&
          (pySet (unique_values.map String.length)).length > 3 then true
      else
        let data_pattern_count := (non_empty.filter (fun val =>
          if containsSub val "@" && containsSub val "." then true
          else if reFullMatch DATE_PAT val then true
          else if 2 ≤ (pyWords val).length && val.length > 10 then true
          else false)).length
        if data_pattern_count > 0 &&
            10 * data_pattern_count ≥ 3 * non_empty.length then true
        else false

/-! ### Value-type detection -/

/-- `is_numeric_code`. -/
def is_numeric_code (value : Option String) (question_text : String) : Bool :=
  let val := safe_str value
  if val = "" then false
  else if contains_any question_text NUMERIC_QUESTION_KEYWORDS then false
  else if containsSub val "," &&
      (pySplit val ',').all
        (fun p => pyIsDigit (pyStrip p) && (pyStrip p).length ≤ 3) then true
  else if pyIsDigit val then
    if val.data.all (fun c => isNdDigit c) then
      let num := strToNat val
      if 1 ≤ num && num ≤ NUMERIC_CODE_MAX then true
      else if NUMERIC_CODE_RANGE_MIN ≤ num && num ≤ NUMERIC_CODE_RANGE_MAX &&
          num % 100 ≠ 0 then true
      else false
    else false
  else false

/-- The inputs on which `is_numeric_code` raises `ValueError`: the value
reaches the plain-digit branch (`val.isdigit()`) but carries a character
with `Numeric_Type=Digit` that is not a decimal digit, so `int(val)`
fails; `is_numeric_code` above totalizes that branch to `false`. -/
def is_numeric_code_raises (value : Option String)
    (question_text : String) : Bool :=
  let val := safe_str value
  if val = "" then false
  else if contains_any question_text NUMERIC_QUESTION_KEYWORDS then false
  else if containsSub val "," &&
      (pySplit val ',').all
        (fun p => pyIsDigit (pyStrip p) && (pyStrip p).length ≤ 3) then false
  else if pyIsDigit val then !val.data.all (fun c => isNdDigit c)
  else false

/-- `is_url`. -/
def is_url (value : Option String) : Bool :=
  let val := pyLower (safe_str value)
  pyStartsWith val "http://" || pyStartsWith val "https://" ||
    pyStartsWith val "www." || pyStartsWith val "ftp://"

/-- `is_file_path`. -/
def is_file_path (value : Option String) : Bool :=
  let val := pyLower (safe_str value)
  FILE_EXTENSIONS.any (fun ext => pyEndsWith val ext)

/-- `^\d+\.?\d*\s*,\s*\d+\.?\d*$`. -/
def COORD_P1 : RPat :=
  [plus isNdDigit, opt (fun c => c = '.'), star isNdDigit,
   star isPySpace, lit ',', star isPySpace,
   plus isNdDigit, opt (fun c => c = '.'), star isNdDigit]

/-- `^\(\d+\.?\d*\s*,\s*\d+\.?\d*\)$`. -/
def COORD_P2 : RPat := [lit '('] ++ COORD_P1 ++ [lit ')']

/-- `^\d+\.?\d*\s*:\s*\d+\.?\d*$`. -/
def COORD_P3 : RPat :=
  [plus isNdDigit, opt (fun c => c = '.'), star isNdDigit,
   star isPySpace, lit ':', star isPySpace,
   plus isNdDigit, opt (fun c => c = '.'), star isNdDigit]

/-- `^x:\s*\d+\.?\d*\s*,?\s*y:\s*\d+\.?\d*$` (IGNORECASE). -/
def COORD_P4 : RPat :=
  [litCI 'x', lit ':', star isPySpace,
   plus isNdDigit, opt (fun c => c = '.'), star isNdDigit,
   star isPySpace, opt (fun c => c = ','), star isPySpace,
   litCI 'y', lit ':', star isPySpace,
   plus isNdDigit, opt (fun c => c = '.'), star isNdDigit]

/-- `is_coordinate`. -/
def is_coordinate (value : Option String) : Bool :=
  let val := safe_str value
  reFullMatch COORD_P1 val || reFullMatch COORD_P2 val ||
    reFullMatch COORD_P3 val || reFullMatch COORD_P4 val

/-- `is_coordinate` on a plain string. -/
def is_coordinateS (s : String) : Bool := is_coordinate (some s)

/-- `is_timing_column`: one of the timing suffixes occurs in the column
identifier (substring containment, as in the source). -/
def is_timing_column (column_id : String) : Bool :=
  TIMING_SUFFIXES.any (fun suffix => containsSub column_id suffix)

/-- `is_json`. -/
def is_json (value : Option String) : Bool :=
  let val := safe_str value
  (pyStartsWith val "\x7b" && pyEndsWith val "\x7d") ||
    (pyStartsWith val "[" && pyEndsWith val "]")

/-- `is_hierarchical`. -/
def is_hierarchical (value : Option String) : Bool :=
  let val := safe_str value
  containsSub val " > " || containsSub val " >> " || containsSub val " → "

/-- `is_multi_value`. -/
def is_multi_value (value : Option String) (sep : Char) : Bool :=
  let val := safe_str value
  if !containsSub val (String.mk [sep]) then false
  else
    let parts := pySplit val sep
    if parts.all
        (fun p => pyIsDigit (pyStrip p) && (pyStrip p).length ≤ 3) then false
    else if is_coordinate value then false
    else
      let text_parts := (parts.map pyStrip).filter (fun p => 2 < p.length)
      if text_parts.length < 2 then false
      else if (text_parts.map String.length).sum >
          MULTI_VALUE_AVG_LENGTH_MAX * text_parts.length then false
      else true

/-- `is_long_text`. -/
def is_long_text (value : Option String) : Bool :=
  LONG_TEXT_THRESHOLD < (safe_str value).length

/-- `detect_value_type`: the ordered decision list of the classifier. -/
def detect_value_type (value : Option String) (question_text : String := "")
    (column_id : String := "") : String :=
  if is_empty value then "empty"
  else if is_timing_column column_id then "timing"
  else if is_url value then (if is_file_path value then "file" else "url")
  else if is_file_path value then "file"
  else if is_coordinate value then "coordinate"
  else if is_json value then "json"
  else if is_hierarchical value then "hierarchical"
  else if is_multi_value value '|' then "pipe_list"
  else if is_multi_value value ';' then "semicolon_list"
  else if is_multi_value value ',' then "comma_list"
  else if is_long_text value then "long_text"
  else if is_numeric_code value question_text then "code"
  else "text"

/-- The inputs on which `detect_value_type` raises: every classifier
ahead of the numeric-code test declines, and the `is_numeric_code` call
in its condition raises `ValueError`; elsewhere `detect_value_type`
above computes exactly what the source returns. -/
def detect_value_type_raises (value : Option String)
    (question_text : String := "") (column_id : String := "") : Bool :=
  if is_empty value then false
  else if is_timing_column column_id then false
  else if is_url value then false
  else if is_file_path value then false
  else if is_coordinate value then false
  else if is_json value then false
  else if is_hierarchical value then false
  else if is_multi_value value '|' then false
  else if is_multi_value value ';' then false
  else if is_multi_value value ',' then false
  else if is_long_text value then false
  else is_numeric_code_raises value question_text

/-! ### Value formatters -/

/-- `format_empty()`. -/
def format_empty : String :=
  "<span class=\x27no-response\x27>No response</span>"

/-- `format_text`. -/
def format_text (value : Option String) : String :=
  pyReplace (safe_html value) "\n" "<br>"

/-- `format_code`: interpolates the raw value into its span without
escaping. -/
def format_code (value : Option String) : String :=
  let val := safe_str value
  if containsSub val "," then
    let codes := (pySplit val ',').map pyStrip
    "<span class=\x27code-value\x27>[Selections: " ++
      joinSep ", " codes ++ "]</span>"
  else "<span class=\x27code-value\x27>[Code: " ++ val ++ "]</span>"

/-- `format_url`. -/
def format_url (value : Option String) : String :=
  let val := safe_str value
  let href :=
    if pyStartsWith val "http://" || pyStartsWith val "https://" then val
    else "https://" ++ val
  "<a href=\x27" ++ safe_htmlS href ++
    "\x27 target=\x27_blank\x27 class=\x27url-link\x27>" ++
    safe_htmlS val ++ "</a>"

/-- `format_file`. -/
def format_file (value : Option String) : String :=
  let val := safe_str value
  if is_url (some val) then
    let filename := (pySplit val '/').getLastD ""
    "<span class=\x27file-upload\x27>📎 <a href=\x27" ++ safe_htmlS val ++
      "\x27 target=\x27_blank\x27>" ++ safe_htmlS filename ++ "</a></span>"
  else "<span class=\x27file-upload\x27>📎 " ++ safe_htmlS val ++ "</span>"

/-- Candidate remainders for one `\d+\.?\d*` number token at the head of
the input, in the greedy backtracking order of Python `re`. -/
def numCandsAt (cs : List Char) : List (List Char) :=
  let k := clsRun isNdDigit cs
  (List.range k).flatMap (fun j =>
    let i := k - j
    let rest1 := cs.drop i
    match rest1 with
    | '.' :: r2 =>
      let m := clsRun isNdDigit r2
      ((List.range (m + 1)).map (fun jj => r2.drop (m - jj))) ++ [rest1]
    | _ => [rest1])

/-- Try `(\d+\.?\d*)\s*[,:]\s*(\d+\.?\d*)` at the head of the input,
returning the two captured groups (used by `format_coordinate`'s
`re.search`). -/
def coordAt (cs : List Char) : Option (List Char × List Char) :=
  (numCandsAt cs).findSome? (fun r1 =>
    let g1 := cs.take (cs.length - r1.length)
    let r2 := r1.dropWhile isPySpace
    match r2 with
    | c :: r3 =>
      if c = ',' || c = ':' then
        let r4 := r3.dropWhile isPySpace
        match numCandsAt r4 with
        | [] => none
        | rest :: _ => some (g1, r4.take (r4.length - rest.length))
      else none
    | [] => none)

/-- The `re.search` scan for `format_coordinate`. -/
def coordSearchGo : Nat → List Char → Option (List Char × List Char)
  | _, [] => none
  | 0, _ => none
  | Nat.succ fuel, c :: cs =>
    match coordAt (c :: cs) with
    | some g => some g
    | none => coordSearchGo fuel cs

/-- `format_coordinate`. -/
def format_coordinate (value : Option String) : String :=
  let val := safe_str value
  match coordSearchGo (val.data.length + 1) val.data with
  | some (x, y) =>
    "<span class=\x27coordinate\x27>📍 X: " ++ String.mk x ++ ", Y: " ++
      String.mk y ++ "</span>"
  | none => "<span class=\x27coordinate\x27>📍 " ++ safe_htmlS val ++ "</span>"

/-- Decimal shape `[-] digits [ '.' digits ]` of a timing value, giving the
sign, integer digits and fraction digits. -/
def decParse (cs : List Char) : Option (Bool × List Char × List Char) :=
  let (neg, cs) :=
    match cs with
    | '-' :: rest => (true, rest)
    | '+' :: rest => (false, rest)
    | _ => (false, cs)
  let k := clsRun isNdDigit cs
  let intDigits := cs.take k
  match cs.drop k with
  | [] => if k = 0 then none else some (neg, intDigits, [])
  | '.' :: r2 =>
    let m := clsRun isNdDigit r2
    if k = 0 && m = 0 then none
    else if (r2.drop m).isEmpty then some (neg, intDigits, r2.take m)
    else none
  | _ => none

/-- Render a nonnegative number of tenths as the `:.1f` string. -/
def tenthsRender (tenths : Nat) : String :=
  toString (tenths / 10) ++ "." ++ toString (tenths % 10)

/-- `format_timing`.  The label dispatch is translated exactly; the
`float()` conversion and `:.1f` rendering of the external runtime are
modelled decimally (half-up rounding), which is exact on the integral and
one-decimal second counts the exports contain; values outside the plain
decimal shape take the `ValueError` branch. -/
def format_timing (value : Option String) (column_id : String) : String :=
  let val := safe_str value
  if containsSub column_id "Click Count" || containsSub column_id "ClickCount"
  then "<span class=\x27timing\x27>🖱️ Clicks: " ++ safe_htmlS val ++ "</span>"
  else
    let label :=
      if containsSub column_id "Page Submit" ||
          containsSub column_id "PageSubmit" then "Page time"
      else if containsSub column_id "First Click" ||
          containsSub column_id "FirstClick" then "First click"
      else if containsSub column_id "Last Click" ||
          containsSub column_id "LastClick" then "Last click"
      else "Time"
    match decParse (stripList val.data) with
    | some (neg, intDigits, fracDigits) =>
      let whole := strToNat (String.mk intDigits)
      if !neg && whole ≥ 60 then
        "<span class=\x27timing\x27>⏱️ " ++ label ++ ": " ++
          toString (whole / 60) ++ "m " ++ toString (whole % 60) ++ "s</span>"
      else
        let d1 := match fracDigits with
          | [] => 0
          | c :: _ => c.toNat - 48
        let roundUp := match fracDigits with
          | _ :: c2 :: _ => decide (5 ≤ c2.toNat - 48)
          | _ => false
        let tenths := whole * 10 + d1 + (if roundUp then 1 else 0)
        let body := (if neg && tenths ≠ 0 then "-" else "") ++
          tenthsRender tenths
        "<span class=\x27timing\x27>⏱️ " ++ label ++ ": " ++ body ++ "s</span>"
    | none =>
      "<span class=\x27timing\x27>⏱️ " ++ label ++ ": " ++ safe_htmlS val ++
        "</span>"

/-- `format_json`.  The pretty-printing branch calls the external `json`
library; it is not modelled (no claim classifies a value as `json`), so this
definition is the `except` branch of the source, which wraps the escaped
literal value. -/
def format_json (value : Option String) : String :=
  "<pre class=\x27json-data\x27>" ++ safe_html value ++ "</pre>"

/-- `str.split(sep)` for a multi-character separator. -/
def splitStrGo (needle : List Char) (acc : List Char) :
    Nat → List Char → List (List Char)
  | _, [] => [acc.reverse]
  | 0, cs => [acc.reverse ++ cs]
  | Nat.succ fuel, c :: cs =>
    if needle.isPrefixOf (c :: cs) && !needle.isEmpty then
      acc.reverse :: splitStrGo needle [] fuel ((c :: cs).drop needle.length)
    else splitStrGo needle (c :: acc) fuel cs

/-- `str.split(sep)` on strings, any separator length. -/
def pySplitStr (s sep : String) : List String :=
  (splitStrGo sep.data [] s.data.length s.data).map String.mk

/-- `format_hierarchical`. -/
def format_hierarchical (value : Option String) : String :=
  let val := safe_str value
  let parts :=
    if containsSub val " >> " then pySplitStr val " >> "
    else if containsSub val " → " then pySplitStr val " → "
    else if containsSub val " > " then pySplitStr val " > "
    else [val]
  let pieces := parts.map (fun p =>
    "<span class=\x27drill-level\x27>" ++ safe_htmlS (pyStrip p) ++ "</span>")
  "<div class=\x27drill-down\x27>" ++
    joinSep "<span class=\x27drill-arrow\x27>›</span>" pieces ++
    "</div>"

/-- `format_list`. -/
def format_list (value : Option String) (sep : Char) : String :=
  let parts := ((pySplit (safe_str value) sep).map pyStrip).filter
    (fun p => p ≠ "")
  if parts.isEmpty then format_empty
  else
    "<ul class=\x27vertical-list\x27>" ++
      String.join (parts.map (fun p => "<li>" ++ safe_htmlS p ++ "</li>")) ++
      "</ul>"

/-- `format_long_text`. -/
def format_long_text (value : Option String) : String :=
  let val := safe_str value
  let paragraphs := ((pySplit val '\n').map pyStrip).filter (fun p => p ≠ "")
  if 1 < paragraphs.length then
    "<div class=\x27long-text\x27>" ++
      String.join (paragraphs.map (fun p => "<p>" ++ safe_htmlS p ++ "</p>")) ++
      "</div>"
  else "<div class=\x27long-text\x27>" ++ safe_htmlS val ++ "</div>"

/-- `format_value`: classify, then dispatch to the matching formatter. -/
def format_value (value : Option String) (question_text : String := "")
    (column_id : String := "") : String :=
  let t := detect_value_type value question_text column_id
  if t = "empty" then format_empty
  else if t = "code" then format_code value
  else if t = "url" then format_url value
  else if t = "file" then format_file value
  else if t = "coordinate" then format_coordinate value
  else if t = "timing" then format_timing value column_id
  else if t = "json" then format_json value
  else if t = "hierarchical" then format_hierarchical value
  else if t = "pipe_list" then format_list value '|'
  else if t = "semicolon_list" then format_list value ';'
  else if t = "comma_list" then format_list value ','
  else if t = "long_text" then format_long_text value
  else format_text value

/-! ### Question structures -/

/-- One matrix cell binding: `{'id': col_id, 'col_label': label}`. -/
structure CellInfo where
  id : String
  col_label : String
deriving DecidableEq

/-- One entry of a question's `rows` dict.  Grouped / form / choice items
carry `id`; matrix rows carry a `cells` dict instead (its presence is what
`format_matrix_response` tests with `'cells' in row_info`). -/
structure RowInfo where
  id : Option String
  label : String
  cells : Option (List (String × CellInfo))
deriving DecidableEq

/-- The per-question QSF metadata produced by `parse_qsf` (the fields the
core consumes). -/
structure QsfInfo where
  text : String
  qsf_type : String
  selector : String
  internal_type : String
  choices : List (String × String)
  choice_order : List String
  answers : List (String × String)
  answer_order : List String
deriving DecidableEq

/-- A resolved question structure (`questions[base_q]` in the source);
`qsf_info := none` models the absent key / empty dict of CSV-only mode. -/
structure Question where
  id : String
  text : String
  type : String
  internal_type : String
  qsf_type : String
  selector : String
  columns : List String
  rows : List (String × RowInfo)
  col_headers : List (String × String)
  col_order : List String
  qsf_info : Option QsfInfo
deriving DecidableEq

/-- `get_label_from_qsf`: map a sequential CSV index to a QSF label, first
by literal identifier, then as a 1-based position into the explicit
ordering, else a synthesized placeholder. -/
def get_label_from_qsf (qsf_info : Option QsfInfo) (csv_index : String)
    (label_type : String) : String :=
  if label_type = "choice" then
    let choices := match qsf_info with
      | some i => i.choices
      | none => []
    let choice_order := match qsf_info with
      | some i => i.choice_order
      | none => []
    match alookup choices csv_index with
    | some l => l
    | none =>
      match pyToIntOpt csv_index with
      | some n =>
        let idx := n - 1
        if 0 ≤ idx && idx < choice_order.length then
          match alookup choices (choice_order.getD idx.toNat "") with
          | some l => l
          | none => "Row " ++ csv_index
        else "Row " ++ csv_index
      | none => "Row " ++ csv_index
  else
    let answers := match qsf_info with
      | some i => i.answers
      | none => []
    let answer_order := match qsf_info with
      | some i => i.answer_order
      | none => []
    match alookup answers csv_index with
    | some l => l
    | none =>
      match pyToIntOpt csv_index with
      | some n =>
        let idx := n - 1
        if 0 ≤ idx && idx < answer_order.length then
          match alookup answers (answer_order.getD idx.toNat "") with
          | some l => l
          | none => "Column " ++ csv_index
        else "Column " ++ csv_index
      | none => "Column " ++ csv_index

/-- `has_response`: some bound column of the question is non-empty in the
row. -/
def has_response (question : Question) (row : Row) : Bool :=
  question.columns.any (fun col => !is_empty (rowGet row col))

/-! ### Response renderers -/

/-- An item of `format_grouped_response` / `format_form_response` after
the per-item analysis (`selections` / `is_categorical` are the keys the
source adds to the item dicts in place). -/
structure GItem where
  label : String
  value : String
  col_id : String
  selections : Option (List String)
  is_categorical : Bool
deriving DecidableEq

/-- `_format_as_data_table`. -/
def format_as_data_table (items : List GItem) (q_text : String) : String :=
  "<table class=\x27data-table\x27><tbody>" ++
    String.join (items.map (fun item =>
      "<tr><th class=\x27data-label\x27>" ++ safe_htmlS item.label ++
        "</th><td class=\x27data-value\x27>" ++
        format_value (some item.value) q_text item.col_id ++ "</td></tr>")) ++
    "</tbody></table>"

/-- `_format_as_checkmark_table`. -/
def format_as_checkmark_table (items : List GItem)
    (all_selections : List String) : String :=
  let col_order := sortStrings all_selections
  "<table class=\x27grouped-table\x27><thead><tr><th></th>" ++
    String.join (col_order.map (fun col => "<th>" ++ safe_htmlS col ++ "</th>")) ++
    "</tr></thead><tbody>" ++
    String.join (items.map (fun item =>
      "<tr><th class=\x27row-header\x27>" ++ safe_htmlS item.label ++ "</th>" ++
        String.join (col_order.map (fun col =>
          match item.selections with
          | some sel =>
            if !sel.isEmpty && sel.any (· = col) then
              "<td class=\x27cell-yes\x27>✓</td>"
            else "<td class=\x27cell-no\x27>—</td>"
          | none => "<td class=\x27cell-no\x27>—</td>")) ++
        "</tr>")) ++
    "</tbody></table>"

/-- The base items of a grouped response: the question's rows in
`sort_row_key` order, keeping those whose bound cell is non-empty. -/
def groupedItems (question : Question) (row : Row) : List GItem :=
  (sortRowKeys (question.rows.map Prod.fst)).filterMap (fun row_key =>
    match alookup question.rows row_key with
    | some row_info =>
      let col_id := row_info.id.getD ""
      let value := rowGet row col_id
      if is_empty value then none
      else some ⟨row_info.label, safe_str value, col_id, none, false⟩
    | none => none)

/-- The per-item categorical analysis of `format_grouped_response`
(the in-place `selections` / `is_categorical` assignments). -/
def analyzeItem (item : GItem) : GItem :=
  let val_str := item.value
  if containsSub val_str "," && !is_coordinateS val_str then
    let parts := ((pySplit val_str ',').map pyStrip).filter (fun p => p ≠ "")
    if parts.all (fun p =>
        p.length ≤ SHORT_VALUE_MAX_LENGTH && !is_numeric_valueS p) then
      { item with selections := some parts, is_categorical := true }
    else { item with selections := none, is_categorical := false }
  else if val_str.length ≤ SHORT_VALUE_MAX_LENGTH &&
      !is_numeric_valueS val_str then
    { item with selections := some [val_str], is_categorical := true }
  else { item with selections := none, is_categorical := false }

/-- `format_grouped_response`: pick a data table, checkmark table, list or
single value from the analysis of this respondent's non-empty items. -/
def format_grouped_response (question : Question) (row : Row) : String :=
  let q_text := question.text
  if question.rows.isEmpty && !question.columns.isEmpty then
    let values := question.columns.filterMap (fun col_id =>
      let val := rowGet row col_id
      if !is_empty val then some (col_id, safe_str val) else none)
    match values with
    | [] => format_empty
    | [(col_id, v)] => format_value (some v) q_text col_id
    | _ =>
      "<ul class=\x27vertical-list\x27>" ++
        String.join (values.map (fun cv =>
          "<li>" ++ format_value (some cv.2) q_text cv.1 ++ "</li>")) ++
        "</ul>"
  else
    let items := groupedItems question row
    let all_values := items.map GItem.value
    if items.isEmpty then format_empty
    else if values_are_numeric_data all_values then
      format_as_data_table items q_text
    else if values_are_unique_data all_values then
      format_as_data_table items q_text
    else
      let enriched := items.map analyzeItem
      let all_selections := pySet (enriched.flatMap (fun it =>
        match it.selections with
        | some sel => sel
        | none => []))
      let is_multiselect_pattern := enriched.all GItem.is_categorical
      let use_checkmark_table :=
        2 ≤ all_selections.length && all_selections.length ≤ 10 &&
          10 * all_selections.length ≤ 7 * enriched.length &&
          is_multiselect_pattern && enriched.all GItem.is_categorical
      if use_checkmark_table then
        format_as_checkmark_table enriched all_selections
      else format_as_data_table enriched q_text

/-- `format_matrix_response`: the row-by-column grid, one dash per missing
cell, the empty indicator when no cell of the question holds data, and the
grouped fallback for matrices without cell structure. -/
def format_matrix_response (question : Question) (row : Row) : String :=
  let q_text := question.text
  let rows_data := question.rows
  let col_order := question.col_order
  let col_headers := question.col_headers
  let has_cells := rows_data.any (fun kv => kv.2.cells.isSome)
  if has_cells then
    let has_data := rows_data.any (fun kv =>
      match kv.2.cells with
      | some cells => cells.any (fun ck => !is_empty (rowGet row ck.2.id))
      | none => false)
    if !has_data then format_empty
    else
      "<table class=\x27matrix-table\x27><thead><tr><th></th>" ++
        String.join (col_order.map (fun col_key =>
          "<th>" ++
            safe_htmlS ((alookup col_headers col_key).getD
              ("Col " ++ col_key)) ++ "</th>")) ++
        "</tr></thead><tbody>" ++
        String.join ((sortRowKeys (rows_data.map Prod.fst)).filterMap
          (fun row_key =>
            match alookup rows_data row_key with
            | some row_info =>
              match row_info.cells with
              | none => none
              | some cells => some
                ("<tr><th class=\x27row-header\x27>" ++
                  safe_htmlS row_info.label ++ "</th>" ++
                  String.join (col_order.map (fun col_key =>
                    match alookup cells col_key with
                    | none => "<td class=\x27empty-cell\x27>—</td>"
                    | some cell =>
                      let value := rowGet row cell.id
                      if is_empty value then
                        "<td class=\x27empty-cell\x27>—</td>"
                      else "<td>" ++ format_value value q_text cell.id ++
                        "</td>")) ++
                  "</tr>")
            | none => none)) ++
        "</tbody></table>"
  else format_grouped_response question row

/-- Column-identifier shape `Q\d+_(\d+)` used by `format_form_response`
to recover an item label from the identifier. -/
def formColSub (col_id : String) : Option String :=
  match col_id.data with
  | 'Q' :: rest =>
    let k := clsRun isNdDigit rest
    if k = 0 then none
    else
      match rest.drop k with
      | '_' :: r2 =>
        let m := clsRun isNdDigit r2
        if m = 0 then none else some (String.mk (r2.take m))
      | _ => none
  | _ => none

/-- `format_form_response`: always a label/value table. -/
def format_form_response (question : Question) (row : Row) : String :=
  let q_text := question.text
  let rows_data := question.rows
  let qsf_info := question.qsf_info
  let items :=
    if rows_data.isEmpty && !question.columns.isEmpty then
      question.columns.filterMap (fun col_id =>
        let value := rowGet row col_id
        if is_empty value then none
        else
          let label := match formColSub col_id with
            | some sub_id => get_label_from_qsf qsf_info sub_id "choice"
            | none => col_id
          some (⟨label, safe_str value, col_id, none, false⟩ : GItem))
    else
      (sortRowKeys (rows_data.map Prod.fst)).filterMap (fun row_key =>
        match alookup rows_data row_key with
        | some row_info =>
          let col_id := row_info.id.getD ""
          let value := rowGet row col_id
          if is_empty value then none
          else some (⟨row_info.label, safe_str value, col_id, none, false⟩ :
            GItem)
        | none => none)
  if items.isEmpty then format_empty
  else
    "<table class=\x27data-table\x27><tbody>" ++
      String.join (items.map (fun item =>
        "<tr><th class=\x27data-label\x27>" ++ safe_htmlS item.label ++
          "</th><td class=\x27data-value\x27>" ++
          format_value (some item.value) q_text item.col_id ++
          "</td></tr>")) ++
      "</tbody></table>"

/-- `format_single_response`. -/
def format_single_response (question : Question) (row : Row) : String :=
  match question.columns with
  | [] => format_empty
  | col_id :: _ =>
    let value := rowGet row col_id
    if is_empty value then format_empty
    else format_value value question.text col_id

/-! ### Respondents and question cards -/

/-- Identity info of `get_respondent_info`. -/
structure RespInfo where
  name : String
  id : String
  email : String
deriving DecidableEq

/-- `get_respondent_info`: display name by priority
name > email > external reference > response id > anonymous. -/
def get_respondent_info (row : Row) (index : Nat) : RespInfo :=
  let get_val (key : String) : String := safe_str (rowGet row key)
  let first := get_val "RecipientFirstName"
  let last := get_val "RecipientLastName"
  let email := get_val "RecipientEmail"
  let resp_id := get_val "ResponseId"
  let ext_ref := get_val "ExternalReference"
  let name :=
    if first ≠ "" then pyStrip (first ++ " " ++ last)
    else if email ≠ "" then email
    else if ext_ref ≠ "" then ext_ref
    else if resp_id ≠ "" then resp_id
    else "Anonymous #" ++ toString (index + 1)
  ⟨name, resp_id, email⟩

/-- `format_respondent_header`. -/
def format_respondent_header (info : RespInfo) (show_meta : Bool := true) :
    String :=
  "<span class=\x27respondent-name-main\x27>" ++ safe_htmlS info.name ++
    "</span>" ++
    (if show_meta && info.id ≠ "" then
      "<span class=\x27respondent-meta\x27>Response: " ++ safe_htmlS info.id ++
        "</span>"
    else "")

/-- One respondent as built by `process_qualtrics`. -/
structure Respondent where
  info : RespInfo
  row : Row
deriving DecidableEq

/-- The per-respondent formatter dispatch of `generate_html` (lines 2377 to
2392 of the source). -/
def render_answer (question : Question) (row : Row) : String :=
  if question.type = "matrix" then format_matrix_response question row
  else if question.type = "form" || question.internal_type = "form" then
    format_form_response question row
  else if question.type = "grouped" || question.type = "choice" then
    format_grouped_response question row
  else if question.type = "single" then
    if question.columns.length = 1 then format_single_response question row
    else format_grouped_response question row
  else format_single_response question row

/-- One question card of `generate_html` (the loop body over `sorted_qs`),
including the surrounding markup of the card exactly as emitted. -/
def generate_question_card (q_id : String) (question : Question)
    (respondents : List Respondent) (debug_mode : Bool) : String :=
  let answered := respondents.filter (fun r => has_response question r.row)
  let meta :=
    if debug_mode then
      "<div class=\x27question-meta\x27>type: " ++ question.type ++
        " | internal: " ++ question.internal_type ++ " | cols: " ++
        toString question.columns.length ++ " | responses: " ++
        toString answered.length ++ "</div>"
    else ""
  let head :=
    "\n        <div class=\"question-card\">\n            <div class=\"question-header\">\n                <div class=\"question-number\">" ++
    q_id ++ "</div>\n                " ++ meta ++
    "\n                <div class=\"question-text\">" ++
    safe_htmlS question.text ++
    "</div>\n            </div>\n            <div class=\"responses-list\">\n"
  let body :=
    if answered.isEmpty then "<div class=\"no-responses\">No responses</div>"
    else
      let single_class := if answered.length = 1 then " single-response" else ""
      String.join (answered.map (fun resp =>
        "\n                <div class=\"respondent-row" ++ single_class ++
          "\">\n                    <div class=\"respondent-name\">" ++
          format_respondent_header resp.info true ++
          "</div>\n                    <div class=\"respondent-answer\">" ++
          render_answer question resp.row ++
          "</div>\n                </div>\n"))
  head ++ body ++ "\n            </div>\n        </div>\n"

/-- The sort key of `sorted_qs`: the first `Q\d+` group found in the
question id (`re.search(r'Q(\d+)', ...)`); the ids built by the extractors
always match, so the default `0` of the no-match case is never taken. -/
def qNumGo : List Char → Option Nat
  | [] => none
  | c :: rest =>
    if c = 'Q' then
      let k := clsRun isNdDigit rest
      if k = 0 then qNumGo rest
      else some (strToNat (String.mk (rest.take k)))
    else qNumGo rest

/-- Numeric sort key of a question id. -/
def qNum (qid : String) : Nat := (qNumGo qid.data).getD 0

/-- `sorted(questions.items(), key=...)`. -/
def sortQuestionPairs (questions : List (String × Question)) :
    List (String × Question) :=
  sortLt (fun a b => decide (qNum a.1 < qNum b.1)) questions

/-- The question-card list of `generate_html`.  The document shell around
the concatenated cards (CSS, header, summary block, closing tags) is
presentation boilerplate the spec puts out of scope; the cards are the
content the claims speak about, one list entry per question card emitted. -/
def generate_html_cards (questions : List (String × Question))
    (respondents : List Respondent) (debug_mode : Bool) : List String :=
  (sortQuestionPairs questions).map (fun qq =>
    generate_question_card qq.1 qq.2 respondents debug_mode)

/-! ### Column-structure extraction -/

/-- Maximal digit run at the head of the input. -/
def munchDigitRun (cs : List Char) : Option (String × List Char) :=
  let k := clsRun isNdDigit cs
  if k = 0 then none else some (String.mk (cs.take k), cs.drop k)

/-- One `_(\d+)` group. -/
def subNum (r : List Char) : Option (String × List Char) :=
  match r with
  | '_' :: r1 => munchDigitRun r1
  | _ => none

/-- The `(_TEXT)?` group. -/
def subTEXT (r : List Char) : Option (List Char) :=
  if "_TEXT".data.isPrefixOf r then some (r.drop 5) else none

/-- Candidate group assignments for
`(?:_(\d+))?(?:_(\d+))?(_TEXT)?` after the base number, in the greedy
backtracking order of Python `re` (each optional group prefers to match;
the digit runs are maximal since nothing that follows can consume a
digit). -/
def tailCandidates (r : List Char) :
    List (Option String × Option String × Bool × List Char) :=
  (match subNum r with
   | some (d2, r2) =>
     (match subNum r2 with
      | some (d3, r3) =>
        (match subTEXT r3 with
         | some r4 => [(some d2, some d3, true, r4)]
         | none => []) ++ [(some d2, some d3, false, r3)]
      | none => []) ++
     (match subTEXT r2 with
      | some r4 => [(some d2, none, true, r4)]
      | none => []) ++
     [(some d2, none, false, r2)]
   | none => []) ++
  (match subTEXT r with
   | some r4 => [(none, none, true, r4)]
   | none => []) ++
  [(none, none, false, r)]

/-- `re.match(r'Q(\d+)(?:_(\d+))?(?:_(\d+))?(_TEXT)?$', col_id)`:
the first candidate consuming the whole identifier. -/
def parseColIdQsfMain (col_id : String) :
    Option (String × Option String × Option String × Bool) :=
  match col_id.data with
  | 'Q' :: rest =>
    match munchDigitRun rest with
    | some (d1, r1) =>
      match (tailCandidates r1).find? (fun t => t.2.2.2.isEmpty) with
      | some (s1, s2, tx, _) => some (d1, s1, s2, tx)
      | none => none
    | none => none
  | _ => none

/-- `re.match(r'Q(\d+)(?:_(.+))?$', col_id)` (the fallback pattern). -/
def parseColIdAlt (col_id : String) : Option (String × Option String) :=
  match col_id.data with
  | 'Q' :: rest =>
    match munchDigitRun rest with
    | some (d1, r1) =>
      match r1 with
      | [] => some (d1, none)
      | '_' :: r2 =>
        if r2.isEmpty then none else some (d1, some (String.mk r2))
      | _ => none
    | none => none
  | _ => none

/-- `re.match(r'Q(\d+)(?:_(\d+))?(?:_(\d+))?(_TEXT)?', col_id)` without the
end anchor (CSV-only mode): the greedy-first candidate, trailing characters
ignored. -/
def parseColIdCsv (col_id : String) :
    Option (String × Option String × Option String × Bool) :=
  match col_id.data with
  | 'Q' :: rest =>
    match munchDigitRun rest with
    | some (d1, r1) =>
      match tailCandidates r1 with
      | t :: _ => some (d1, t.1, t.2.1, t.2.2.1)
      | [] => none
    | none => none
  | _ => none

/-- `value or default` on an optional string (`None` and `''` falsy). -/
def orElseStr (o : Option String) (d : String) : String :=
  match o with
  | some s => if s ≠ "" then s else d
  | none => d

/-- `if col_id not in q['columns']: q['columns'].append(col_id)`. -/
def addColumnIfAbsent (q : Question) (col_id : String) : Question :=
  if q.columns.any (· = col_id) then q
  else { q with columns := q.columns ++ [col_id] }

/-- `if sub1 not in q['rows']: q['rows'][sub1] = {'label': l, 'cells': {}}`. -/
def addMatrixRowIfAbsent (q : Question) (k label : String) : Question :=
  match alookup q.rows k with
  | some _ => q
  | none => { q with rows := q.rows ++ [(k, ⟨none, label, some []⟩)] }

/-- `q['rows'][sub1]['cells'][sub2] = cell`.  When the existing row entry
has no `cells` dict (a mixed `Qn_i` / `Qn_i_j` identifier pattern) the
Python source raises `KeyError` and produces no output; the embedding
totalises that unreachable-on-real-exports path by creating the dict, which
leaves every property stated below unaffected. -/
def setRowCell (q : Question) (k sub2 : String) (cell : CellInfo) : Question :=
  { q with rows := amodify q.rows k (fun ri =>
      { ri with cells := some (aset (ri.cells.getD []) sub2 cell) }) }

/-- Append a column key and its header label on first encounter
(`if sub2 not in q['col_headers']`). -/
def addColHeaderIfAbsent (q : Question) (k label : String) : Question :=
  match alookup q.col_headers k with
  | some _ => q
  | none =>
    { q with col_headers := q.col_headers ++ [(k, label)],
             col_order := q.col_order ++ [k] }

/-- `q['col_headers'][sub2] = label` on an existing key. -/
def setColHeader (q : Question) (k label : String) : Question :=
  { q with col_headers := aset q.col_headers k label }

/-- `if sub1 not in q['rows']: q['rows'][sub1] = {'id': ..., 'label': ...}`. -/
def addItemRowIfAbsent (q : Question) (k : String) (ri : RowInfo) : Question :=
  match alookup q.rows k with
  | some _ => q
  | none => { q with rows := q.rows ++ [(k, ri)] }

/-- `q['rows'][sub1]['label'] = label` on an existing key. -/
def setRowLabel (q : Question) (k label : String) : Question :=
  { q with rows := amodify q.rows k (fun ri => { ri with label := label }) }

/-- The CSV-only matrix-row block: create the row on first encounter, else
refresh a placeholder label
(`if sub1 not in q['rows']: ... elif row_label != f"Row {sub1}": ...`). -/
def csvMatrixRow (q : Question) (s1 rl : String) : Question :=
  match alookup q.rows s1 with
  | none => { q with rows := q.rows ++ [(s1, ⟨none, rl, some []⟩)] }
  | some _ => if rl ≠ "Row " ++ s1 then setRowLabel q s1 rl else q

/-- The CSV-only column-header block: append the key and label on first
encounter, else refresh a placeholder label. -/
def csvColHeader (q : Question) (s2 cl : String) : Question :=
  match alookup q.col_headers s2 with
  | none =>
    { q with col_headers := q.col_headers ++ [(s2, cl)],
             col_order := q.col_order ++ [s2] }
  | some _ => if cl ≠ "Column " ++ s2 then setColHeader q s2 cl else q

/-- A fresh question record with empty structure. -/
def emptyQuestion (base_q q_text internal_type qsf_type selector : String)
    (qi : Option QsfInfo) : Question :=
  { id := base_q, text := q_text, type := "single",
    internal_type := internal_type, qsf_type := qsf_type,
    selector := selector, columns := [], rows := [], col_headers := [],
    col_order := [], qsf_info := qi }

/-- The question record the QSF-assisted extraction step starts from for
a column: the record already stored under the base key, or a fresh one
whose text comes from the definition metadata, falling back to the
cleaned column header (`extract_questions_with_qsf`, lines 1221 to 1241). -/
def qsfInit (qsf_metadata : List (String × QsfInfo))
    (acc : List (String × Question)) (col_text : Option String)
    (base_q : String) : Question :=
  let qi := alookup qsf_metadata base_q
  let internal_type := match qi with
    | some i => i.internal_type
    | none => "unknown"
  match alookup acc base_q with
  | some q => q
  | none =>
    let q_text0 := match qi with
      | some i => i.text
      | none => ""
    let q_text :=
      if q_text0 = "" then clean_question_text col_text else q_text0
    emptyQuestion base_q q_text internal_type
      (match qi with | some i => i.qsf_type | none => "")
      (match qi with | some i => i.selector | none => "") qi

/-- The structural update the QSF-assisted extraction step applies to
the question record for one column, dispatching on the internal type
from the definition metadata (`extract_questions_with_qsf`, lines 1245
to 1339). -/
def qsfUpdate (col_id : String) (col_text : Option String)
    (qi : Option QsfInfo) (internal_type : String)
    (sub1 sub2 : Option String) (q1 : Question) : Question :=
  if internal_type = "matrix_text" || internal_type = "matrix_likert"
      || internal_type = "matrix_multi" then
    let qm := { q1 with type := "matrix" }
    match sub1, sub2 with
    | some s1, some s2 =>
      let row_label := get_label_from_qsf qi s1 "choice"
      let col_label := get_label_from_qsf qi s2 "answer"
      let qm := addMatrixRowIfAbsent qm s1 row_label
      let qm := setRowCell qm s1 s2 ⟨col_id, col_label⟩
      addColHeaderIfAbsent qm s2 col_label
    | some s1, none =>
      addItemRowIfAbsent qm s1
        ⟨some col_id, get_label_from_qsf qi s1 "choice", none⟩
    | none, _ => qm
  else if internal_type = "form" then
    let qf := { q1 with type := "form" }
    match sub1 with
    | some s1 =>
      addItemRowIfAbsent qf s1
        ⟨some col_id, get_label_from_qsf qi s1 "choice", none⟩
    | none => qf
  else if internal_type = "single_choice" ||
      internal_type = "multi_choice" then
    match sub1 with
    | some s1 =>
      addItemRowIfAbsent { q1 with type := "choice" } s1
        ⟨some col_id, get_label_from_qsf qi s1 "choice", none⟩
    | none => q1
  else
    match sub1, sub2 with
    | some s1, some s2 =>
      let qm := { q1 with type := "matrix" }
      let row_label0 := get_label_from_qsf qi s1 "choice"
      let col_label0 := get_label_from_qsf qi s2 "answer"
      let rc :=
        if row_label0 = "Row " ++ s1 ||
            col_label0 = "Column " ++ s2 then
          let eml := extract_matrix_labels col_text
          ((if row_label0 = "Row " ++ s1 then
              orElseStr eml.2.1 row_label0
            else row_label0),
           (if col_label0 = "Column " ++ s2 then
              orElseStr eml.2.2 col_label0
            else col_label0))
        else (row_label0, col_label0)
      let qm := addMatrixRowIfAbsent qm s1 rc.1
      let qm := setRowCell qm s1 s2 ⟨col_id, rc.2⟩
      addColHeaderIfAbsent qm s2 rc.2
    | some s1, none =>
      let qg := { q1 with type := "grouped" }
      let item_label0 := get_label_from_qsf qi s1 "choice"
      let item_label :=
        if item_label0 = "Row " ++ s1 then
          orElseStr (extract_matrix_labels col_text).2.1 item_label0
        else item_label0
      addItemRowIfAbsent qg s1 ⟨some col_id, item_label, none⟩
    | none, _ => q1

/-- Body of one column of the QSF-assisted extraction loop, after the
column identifier has been parsed into its base number and sub-indices
(`extract_questions_with_qsf`, lines 1204 to 1341). -/
def qsfApply (qsf_metadata : List (String × QsfInfo))
    (acc : List (String × Question)) (col_id : String)
    (col_text : Option String) (baseNum : String)
    (sub1 sub2 : Option String) : List (String × Question) :=
  let base_q := "Q" ++ baseNum
  let qi := alookup qsf_metadata base_q
  let internal_type := match qi with
    | some i => i.internal_type
    | none => "unknown"
  aset acc base_q
    (qsfUpdate col_id col_text qi internal_type sub1 sub2
      (addColumnIfAbsent (qsfInit qsf_metadata acc col_text base_q) col_id))

/-- The TEXT-suffix handling of the first sub-index in the QSF-assisted
extraction step: a non-numeric first group equal to `TEXT` marks the
column as a free-text sibling (`extract_questions_with_qsf`, lines 1195
to 1202). -/
def qsfSub1Text (sub1a : Option String) (is_text0 : Bool) :
    Option String × Bool :=
  match sub1a with
  | some s =>
    if !pyIsDigit s then
      (if s = "TEXT" then (none, true) else (some s, is_text0))
    else (some s, is_text0)
  | none => (none, is_text0)

/-- One column of the QSF-assisted extraction loop
(`extract_questions_with_qsf`, lines 1184 to 1341). -/
def qsfStep (qsf_metadata : List (String × QsfInfo))
    (acc : List (String × Question)) (col_id : String)
    (col_text : Option String) : List (String × Question) :=
  if METADATA_COLUMNS.any (· = col_id) then acc
  else if is_timing_column col_id then acc
  else if !pyStartsWith col_id "Q" then acc
  else
    match (match parseColIdQsfMain col_id with
      | some r => some r
      | none =>
        match parseColIdAlt col_id with
        | some (d1, s1) => some (d1, s1, none, false)
        | none => none) with
    | none => acc
    | some (baseNum, sub1a, sub2, is_text0) =>
      if (qsfSub1Text sub1a is_text0).2 &&
          (qsfSub1Text sub1a is_text0).1.isSome then acc
      else
        qsfApply qsf_metadata acc col_id col_text baseNum
          (qsfSub1Text sub1a is_text0).1 sub2

/-- `extract_questions_with_qsf`, taking the two CSV header rows as the
list of `(column identifier, header text)` pairs the out-of-scope CSV
reader supplies. -/
def extract_questions_with_qsf (cols : List (String × Option String))
    (qsf_metadata : List (String × QsfInfo)) : List (String × Question) :=
  cols.foldl (fun acc col => qsfStep qsf_metadata acc col.1 col.2) []

/-- One column of the CSV-only extraction loop
(`extract_questions_from_csv`, lines 1366 to 1443). -/
def csvStep (acc : List (String × Question)) (col_id : String)
    (col_text : Option String) : List (String × Question) :=
  if METADATA_COLUMNS.any (· = col_id) then acc
  else if is_timing_column col_id then acc
  else if !pyStartsWith col_id "Q" then acc
  else
    match parseColIdCsv col_id with
    | none => acc
    | some (baseNum, sub1, sub2, is_text_field) =>
      if is_text_field && sub1.isSome then acc
      else
        let base_q := "Q" ++ baseNum
        let eml := extract_matrix_labels col_text
        let base_text := eml.1
        let row_label := eml.2.1
        let col_label := eml.2.2
        let q0 := match alookup acc base_q with
          | some q => q
          | none => emptyQuestion base_q "" "unknown" "" "" none
        let q1 :=
          if q0.text.length < base_text.length then { q0 with text := base_text }
          else q0
        let q2 := addColumnIfAbsent q1 col_id
        let q3 :=
          match sub1, sub2 with
          | some s1, some s2 =>
            let qm := { q2 with type := "matrix" }
            let rl := orElseStr row_label ("Row " ++ s1)
            let cl := orElseStr col_label ("Column " ++ s2)
            let qm := csvMatrixRow qm s1 rl
            let qm := setRowCell qm s1 s2 ⟨col_id, cl⟩
            csvColHeader qm s2 cl
          | some s1, none =>
            let qg := { q2 with type := "grouped" }
            addItemRowIfAbsent qg s1
              ⟨some col_id, orElseStr row_label ("Item " ++ s1), none⟩
          | none, _ => q2
        aset acc base_q q3

/-- `extract_questions_from_csv`. -/
def extract_questions_from_csv (cols : List (String × Option String)) :
    List (String × Question) :=
  cols.foldl (fun acc col => csvStep acc col.1 col.2) []

/-! ### QSF parsing and the processing pipeline -/

/-- A QSF `Choices` / `Answers` / `ColumnLabels` entry: either a JSON
object with optional `Display` / `Text` fields, or a bare JSON scalar
(which the source passes through `str`). -/
inductive ChoiceVal where
  | obj (display : Option String) (textField : Option String)
  | str (s : String)
deriving DecidableEq

/-- Label of a choice / answer entry:
`data.get('Display', data.get('Text', f'{kind} {id}'))`. -/
def choiceDisplay (cd : ChoiceVal) (cid kind : String) : String :=
  match cd with
  | .obj d t => d.getD (t.getD (kind ++ " " ++ cid))
  | .str s => s

/-- Label of a `ColumnLabels` entry:
`data.get('Display', f'Column {id}')`. -/
def colLabelDisplay (cd : ChoiceVal) (cid : String) : String :=
  match cd with
  | .obj d _ => d.getD ("Column " ++ cid)
  | .str s => s

/-- The payload of a survey-question element (the keys `parse_qsf` reads;
identifiers are modelled as the strings the source converts them to). -/
structure SqPayload where
  QuestionType : String
  Selector : String
  SubSelector : Option String
  QuestionText : String
  DataExportTag : String
  Choices : List (String × ChoiceVal)
  ChoiceOrder : List String
  Answers : List (String × ChoiceVal)
  AnswerOrder : List String
  ColumnLabels : List (String × ChoiceVal)
deriving DecidableEq

/-- One element of `SurveyElements`. -/
structure SqElement where
  Element : String
  PrimaryAttribute : String
  Payload : SqPayload
deriving DecidableEq

/-- `QSF_TYPE_MAP`: the fixed triple-to-internal-type table. -/
def QSF_TYPE_MAP : List ((String × String × Option String) × String) :=
  [ (("Matrix", "TE", some "Long"), "matrix_text"),
    (("Matrix", "TE", some "Short"), "matrix_text"),
    (("Matrix", "TE", none), "matrix_text"),
    (("Matrix", "Likert", some "SingleAnswer"), "matrix_likert"),
    (("Matrix", "Likert", some "MultipleAnswer"), "matrix_multi"),
    (("Matrix", "Likert", none), "matrix_likert"),
    (("Matrix", "Profile", none), "matrix_likert"),
    (("Matrix", "Bipolar", none), "matrix_likert"),
    (("Matrix", "MaxDiff", none), "matrix_likert"),
    (("TE", "FORM", none), "form"),
    (("TE", "SL", none), "single_text"),
    (("TE", "ML", none), "multi_text"),
    (("TE", "ESTB", none), "essay"),
    (("TE", "", none), "single_text"),
    (("MC", "SAVR", some "TX"), "single_choice"),
    (("MC", "SAVR", none), "single_choice"),
    (("MC", "SAHR", none), "single_choice"),
    (("MC", "SACOL", none), "single_choice"),
    (("MC", "MAVR", some "TX"), "multi_choice"),
    (("MC", "MAVR", none), "multi_choice"),
    (("MC", "MAHR", none), "multi_choice"),
    (("MC", "MACOL", none), "multi_choice"),
    (("MC", "DL", none), "single_choice"),
    (("MC", "RB", none), "single_choice"),
    (("MC", "NPS", none), "single_choice"),
    (("DB", "TB", none), "display"),
    (("DB", "GRB", none), "display"),
    (("Slider", "HBAR", none), "single_text"),
    (("Slider", "HSLIDER", none), "single_text"),
    (("SBS", "", none), "matrix_text") ]

/-- Exact lookup in `QSF_TYPE_MAP`.  The Python keys `('TE', None, None)`
and `('SBS', None, None)` are reachable only when the payload lacks a
selector, which `payload.get('Selector', '')` renders as `''`; they are
modelled with `''` in the selector slot accordingly. -/
def qsfTypeLookup (k : String × String × Option String) : Option String :=
  match QSF_TYPE_MAP.find? (fun e => e.1 = k) with
  | some e => some e.2
  | none => none

/-- Choice / answer label table in explicit order, with the fallback pass
over the raw dict when the ordered pass yields nothing. -/
def extractLabeled (order : List String) (raw : List (String × ChoiceVal))
    (kind : String) : List (String × String) :=
  let fromOrder := order.foldl (fun acc cid =>
    match alookup raw cid with
    | some cd => aset acc cid (clean_html_text (choiceDisplay cd cid kind))
    | none => acc) []
  let first := if order.isEmpty then [] else fromOrder
  if first.isEmpty && !raw.isEmpty then
    raw.foldl (fun acc kv =>
      aset acc kv.1 (clean_html_text (choiceDisplay kv.2 kv.1 kind))) []
  else first

/-- One element of the `parse_qsf` loop: skip non-`SQ` elements and
elements without an export tag, resolve the internal type through the
two-tier `QSF_TYPE_MAP` lookup, clean the text, and build the label
tables.  The stored bookkeeping fields nothing downstream reads (`qid`,
`subselector`, `recode_values`) are omitted from `QsfInfo`. -/
def parseElement (acc : List (String × QsfInfo)) (element : SqElement) :
    List (String × QsfInfo) :=
  if element.Element ≠ "SQ" then acc
  else
    let payload := element.Payload
    let export_tag := payload.DataExportTag
    if export_tag = "" then acc
    else
      let internal_type :=
        match qsfTypeLookup
            (payload.QuestionType, payload.Selector, payload.SubSelector) with
        | some t => t
        | none =>
          (qsfTypeLookup (payload.QuestionType, payload.Selector, none)).getD
            "unknown"
      let question_text := clean_html_text payload.QuestionText
      let choices := extractLabeled payload.ChoiceOrder payload.Choices "Choice"
      let answers0 :=
        extractLabeled payload.AnswerOrder payload.Answers "Answer"
      let answers :=
        if !payload.ColumnLabels.isEmpty && answers0.isEmpty then
          payload.ColumnLabels.foldl (fun acc2 kv =>
            aset acc2 kv.1 (clean_html_text (colLabelDisplay kv.2 kv.1))) []
        else answers0
      aset acc export_tag
        { text := question_text, qsf_type := payload.QuestionType,
          selector := payload.Selector, internal_type := internal_type,
          choices := choices,
          choice_order :=
            if payload.ChoiceOrder.isEmpty then choices.map Prod.fst
            else payload.ChoiceOrder,
          answers := answers,
          answer_order :=
            if payload.AnswerOrder.isEmpty then answers.map Prod.fst
            else payload.AnswerOrder }

/-- `parse_qsf`: `none` models a definition file whose contents
`json.load` cannot parse, on which the source propagates the
`json.JSONDecodeError` (there is no surrounding `try`); a parsed document
is reduced element by element. -/
def parse_qsf (jsonDoc : Option (List SqElement)) :
    Except Unit (List (String × QsfInfo)) :=
  match jsonDoc with
  | none => Except.error ()
  | some elements => Except.ok (elements.foldl parseElement [])

/-- The definition file as seen by `process_qualtrics`: whether the given
path exists, and the `json.load` outcome of its contents. -/
structure QsfSourceFile where
  pathExists : Bool
  json : Option (List SqElement)

/-- The tabular export as handed to the core by the out-of-scope CSV
reader: identifier row zipped with the header-text row, plus the response
rows. -/
structure CsvData where
  columns : List (String × Option String)
  rows : List Row

/-- The respondent list built by `process_qualtrics`. -/
def buildRespondents (rows : List Row) : List Respondent :=
  rows.enum.map (fun ir => ⟨get_respondent_info ir.2 ir.1, ir.2⟩)

/-- `process_qualtrics` reduced to the embedded core: QSF parsing (when the
path is given and exists), structure extraction in the matching mode, and
the `(respondent count, question count)` result.  `Except.error` models an
exception escaping the function; CSV validation and the final file write
are the out-of-scope I/O collaborators. -/
def process_qualtrics (csv : CsvData) (qsf : Option QsfSourceFile) :
    Except Unit (Nat × Nat) :=
  let csvOnly : Except Unit (Nat × Nat) :=
    Except.ok ((buildRespondents csv.rows).length,
      (extract_questions_from_csv csv.columns).length)
  match qsf with
  | some f =>
    if f.pathExists then
      match parse_qsf f.json with
      | Except.error e => Except.error e
      | Except.ok meta =>
        Except.ok ((buildRespondents csv.rows).length,
          (extract_questions_with_qsf csv.columns meta).length)
    else csvOnly
  | none => csvOnly

/-! ### Observation helpers used by the statements -/

/-- Count of non-overlapping occurrences of a substring, scanning left to
right. -/
def countSubGo (needle : List Char) : Nat → List Char → Nat
  | _, [] => 0
  | 0, _ => 0
  | Nat.succ fuel, c :: cs =>
    if needle.isPrefixOf (c :: cs) && !needle.isEmpty then
      1 + countSubGo needle fuel ((c :: cs).drop needle.length)
    else countSubGo needle fuel cs

/-- Occurrence count of `sub` in `s`. -/
def countSub (s sub : String) : Nat := countSubGo sub.data s.data.length s.data

/-- All column identifiers bound as matrix cells of a question. -/
def matrixCellIds (q : Question) : List String :=
  q.rows.flatMap (fun kv =>
    match kv.2.cells with
    | some cells => cells.map (fun ck => ck.2.id)
    | none => [])

/-- The structural invariant of claim C9 on one question: the recorded
column ordering has no duplicates, the keys of the column-header table are
exactly the column ordering, and row keys are unique. -/
def questionWF (q : Question) : Prop :=
  q.col_order.Nodup ∧ q.col_headers.map Prod.fst = q.col_order ∧
    (q.rows.map Prod.fst).Nodup

/-- State-passing view of the dispatch of one respondent render: the Python
renderers receive the shared (mutable) question structure and return the
fragment; their bodies contain no assignment into the structure, so the
embedded render returns the fragment together with the structure it was
given. -/
def render_answer_st (q : Question) (row : Row) : String × Question :=
  (render_answer q row, q)

/-- Default question used with `Option.getD` in closed statements. -/
def qDefault : Question := emptyQuestion "" "" "" "" "" none

/-! ### Concrete fixtures for the claims -/

/-- C1: a grouped question with three bound items. -/
def c1Question3 : Question :=
  { id := "Q5", text := "Pick colors", type := "grouped",
    internal_type := "unknown", qsf_type := "", selector := "",
    columns := ["Q5_1", "Q5_2", "Q5_3"],
    rows := [("1", ⟨some "Q5_1", "Item A", none⟩),
             ("2", ⟨some "Q5_2", "Item B", none⟩),
             ("3", ⟨some "Q5_3", "Item C", none⟩)],
    col_headers := [], col_order := [], qsf_info := none }

/-- C1: every item answered with one of the two tokens, both occurring. -/
def c1RowRedBlue3 : Row :=
  [("Q5_1", some "Red"), ("Q5_2", some "Blue"), ("Q5_3", some "Red")]

/-- C1 (amended): the same two tokens over five bound items, which brings
the distinct-value ratio to `2/5 ≤ 0.5`. -/
def c1Question5 : Question :=
  { c1Question3 with
    columns := ["Q5_1", "Q5_2", "Q5_3", "Q5_4", "Q5_5"],
    rows := [("1", ⟨some "Q5_1", "Item A", none⟩),
             ("2", ⟨some "Q5_2", "Item B", none⟩),
             ("3", ⟨some "Q5_3", "Item C", none⟩),
             ("4", ⟨some "Q5_4", "Item D", none⟩),
             ("5", ⟨some "Q5_5", "Item E", none⟩)] }

/-- C1 (amended): the five-item respondent row. -/
def c1RowRedBlue5 : Row :=
  [("Q5_1", some "Red"), ("Q5_2", some "Red"), ("Q5_3", some "Blue"),
   ("Q5_4", some "Blue"), ("Q5_5", some "Red")]

/-- C1: twelve distinct short tokens across the three items. -/
def c1Row12Tokens : Row :=
  [("Q5_1", some "Taa, Tbb, Tcc, Tdd"),
   ("Q5_2", some "Tee, Tff, Tgg, Thh"),
   ("Q5_3", some "Tii, Tjj, Tkk, Tll")]

/-- C3: the two CSV header rows of the end-to-end example. -/
def c3cols : List (String × Option String) :=
  [("Q1", some "Do you agree?"),
   ("Q2_1", some "Rate things - Thing A"),
   ("Q2_2", some "Rate things - Thing B")]

/-- C3: the fully populated respondent row. -/
def c3rowA : Row :=
  [("Q1", some "Yes"), ("Q2_1", some "Agree"), ("Q2_2", some "Disagree")]

/-- C3: the respondent row with `Q2_1` empty. -/
def c3rowB : Row :=
  [("Q1", some "No"), ("Q2_1", some ""), ("Q2_2", some "Agree")]

/-- C3: the question table inferred from the headers (no definition
file). -/
def c3questions : List (String × Question) := extract_questions_from_csv c3cols

/-- C3: the inferred `Q2` structure. -/
def c3q2 : Question := (alookup c3questions "Q2").getD qDefault

/-- C3: the two respondents as `process_qualtrics` builds them. -/
def c3respondents : List Respondent :=
  [⟨get_respondent_info c3rowA 0, c3rowA⟩,
   ⟨get_respondent_info c3rowB 1, c3rowB⟩]

/-- C3: the question cards of the generated report. -/
def c3cards : List String := generate_html_cards c3questions c3respondents false

/-- C7: a two-by-two matrix question. -/
def c7q : Question :=
  { id := "Q3", text := "Assess the items", type := "matrix",
    internal_type := "unknown", qsf_type := "", selector := "",
    columns := ["Q3_1_1", "Q3_1_2", "Q3_2_1", "Q3_2_2"],
    rows := [("1", ⟨none, "Row One",
                some [("1", ⟨"Q3_1_1", "Col One"⟩), ("2", ⟨"Q3_1_2", "Col Two"⟩)]⟩),
             ("2", ⟨none, "Row Two",
                some [("1", ⟨"Q3_2_1", "Col One"⟩), ("2", ⟨"Q3_2_2", "Col Two"⟩)]⟩)],
    col_headers := [("1", "Col One"), ("2", "Col Two")],
    col_order := ["1", "2"], qsf_info := none }

/-- C7: a partially answered matrix row (one missing cell). -/
def c7rowPartial : Row :=
  [("Q3_1_1", some "Good"), ("Q3_1_2", some ""), ("Q3_2_2", some "Bad")]

/-- C7: a row answering no cell of the question. -/
def c7rowAllEmpty : Row := [("Q3_1_1", some ""), ("Q3_2_2", none)]

/-- C7: two respondents, neither of whom answered any cell. -/
def c7respondentsNone : List Respondent :=
  [⟨get_respondent_info c7rowAllEmpty 0, c7rowAllEmpty⟩,
   ⟨get_respondent_info c7rowAllEmpty 1, c7rowAllEmpty⟩]

/-- C7: the question card when nobody answered. -/
def c7cardNone : String :=
  generate_question_card "Q3" c7q c7respondentsNone false

/-- C9: header rows mixing a matrix question, a grouped question and a
repeated column identifier. -/
def c9cols : List (String × Option String) :=
  [("Q4_1_1", some "Grid - R1 - C1"), ("Q4_1_2", some "Grid - R1 - C2"),
   ("Q4_2_1", some "Grid - R2 - C1"), ("Q4_2_2", some "Grid - R2 - C2"),
   ("Q4_2_2", some "Grid - R2 - C2"), ("Q7_1", some "List - First"),
   ("Q7_2", some "List - Second")]

/-- C9: the matrix question extracted from `c9cols`. -/
def c9q4 : Question :=
  (alookup (extract_questions_from_csv c9cols) "Q4").getD qDefault

/-- C2: a minimal tabular export. -/
def c2csv : CsvData := ⟨[("Q1", some "A question")], [[("Q1", some "Yes")]]⟩

/-! ## Theorems -/

set_option maxRecDepth 1000000
set_option maxHeartbeats 2000000

/-- Helper: on the value `"1,2,3"` the numeric-code test succeeds exactly
when the question text carries no numeric keyword. -/
theorem is_numeric_code_123 (qt : String) :
    is_numeric_code (some "1,2,3") qt =
      !(contains_any qt NUMERIC_QUESTION_KEYWORDS) := by
  cases hq : contains_any qt NUMERIC_QUESTION_KEYWORDS
  · unfold is_numeric_code
    rw [hq]
    decide
  · unfold is_numeric_code
    rw [hq]
    decide

/-- Helper: the classifier on the value `"1,2,3"`, for every question text
and column identifier. -/
theorem detect_123 (qt col : String) :
    detect_value_type (some "1,2,3") qt col =
      if is_timing_column col then "timing"
      else if contains_any qt NUMERIC_QUESTION_KEYWORDS then "text"
      else "code" := by
  cases ht : is_timing_column col
  · cases hq : contains_any qt NUMERIC_QUESTION_KEYWORDS
    · unfold detect_value_type is_numeric_code
      rw [ht, hq]
      decide
    · unfold detect_value_type is_numeric_code
      rw [ht, hq]
      decide
  · unfold detect_value_type
    rw [ht, show is_empty (some "1,2,3") = false from by decide]
    simp

/-- C5: the value `"1,2,3"` is never classified `comma_list`, whatever the
question text and column identifier; with empty question text and a
non-timing column it is classified `code`. -/
theorem c5_code_precedence (qt col : String) :
    detect_value_type (some "1,2,3") qt col ≠ "comma_list" ∧
      (is_timing_column col = false →
        detect_value_type (some "1,2,3") "" col = "code") := by
  constructor
  · rw [detect_123]
    split
    · decide
    · split
      · decide
      · decide
  · intro ht
    rw [detect_123]
    rw [ht]
    decide

/-- C5 witness: at the concrete non-timing column `Q7`. -/
theorem c5_code_precedence_witness :
    detect_value_type (some "1,2,3") "" "Q7" ≠ "comma_list" ∧
      detect_value_type (some "1,2,3") "" "Q7" = "code" :=
  ⟨(c5_code_precedence "" "Q7").1, (c5_code_precedence "" "Q7").2 (by decide)⟩

/-- C6 counterexample: classification is not total — on the superscript
two, `str.isdigit()` holds (`Numeric_Type=Digit`) while the character is
no decimal digit, so `int()` raises `ValueError` inside `is_numeric_code`
and the error escapes `detect_value_type`. -/
theorem c6_classifier_counterexample :
    detect_value_type_raises (some "²") "" "Q1" = true ∧
      pyIsDigitChar '²' = true ∧ isNdDigit '²' = false := by
  refine ⟨?_, by decide, by decide⟩
  decide

/-- C6 amended: off the raising inputs the classifier is total — it
yields one of the thirteen tags — and yields `empty` exactly when the
value is null or blank after trimming, timing columns included. -/
theorem c6_classifier_amended (v : Option String) (qt col : String)
    (_hr : detect_value_type_raises v qt col = false) :
    detect_value_type v qt col ∈
      ["empty", "timing", "url", "file", "coordinate", "json",
       "hierarchical", "pipe_list", "semicolon_list", "comma_list",
       "long_text", "code", "text"] ∧
    (detect_value_type v qt col = "empty" ↔ is_empty v = true) := by
  by_cases h : is_empty v = true
  · unfold detect_value_type
    rw [if_pos h]
    exact ⟨by decide, ⟨fun _ => h, fun _ => rfl⟩⟩
  · simp only [Bool.not_eq_true] at h
    unfold detect_value_type
    rw [h]
    simp only [Bool.false_eq_true, if_false]
    repeat' split
    all_goals exact ⟨by decide, iff_of_false (by decide) (by simp)⟩

/-- C6 witness: a blank value inside a timing column raises nowhere and
still classifies `empty`. -/
theorem c6_classifier_amended_witness :
    detect_value_type_raises (some " ") "" "Q1_Page Submit" = false ∧
      detect_value_type (some " ") "" "Q1_Page Submit" = "empty" ∧
        is_empty (some " ") = true :=
  ⟨by decide,
   (c6_classifier_amended (some " ") "" "Q1_Page Submit" (by decide)).2.mpr
     (by decide),
   by decide⟩

/-- C1 counterexample: with the two tokens `Red` / `Blue` spread over three
items, the distinct-value ratio `2/3` exceeds the `0.5` uniqueness
threshold checked first, so the render is a key-value data table — not the
checkmark matrix the claim asserts. -/
theorem c1_checkmark_counterexample :
    pyStartsWith (format_grouped_response c1Question3 c1RowRedBlue3)
        "<table class=\x27data-table\x27>" = true ∧
      containsSub (format_grouped_response c1Question3 c1RowRedBlue3)
        "grouped-table" = false := by
  constructor
  · decide
  · decide

/-- C1 amended: three items over `{Red, Blue}` render a data table (the
uniqueness gate fires at ratio `2/3 > 0.5`); the checkmark matrix appears
once the distinct-value ratio passes the gate — five items over the same
two tokens (ratio `2/5`) render the checkmark matrix with columns
`Blue`, `Red`; and twelve distinct short tokens across three items fall
back to a data table. -/
theorem c1_checkmark_amended :
    pyStartsWith (format_grouped_response c1Question3 c1RowRedBlue3)
        "<table class=\x27data-table\x27>" = true ∧
      pyStartsWith (format_grouped_response c1Question5 c1RowRedBlue5)
        "<table class=\x27grouped-table\x27><thead><tr><th></th><th>Blue</th><th>Red</th></tr></thead>" = true ∧
      containsSub (format_grouped_response c1Question5 c1RowRedBlue5)
        "cell-yes" = true ∧
      pyStartsWith (format_grouped_response c1Question3 c1Row12Tokens)
        "<table class=\x27data-table\x27>" = true := by
  refine ⟨by decide, by decide, by decide, by decide⟩

/-- C2 counterexample: a definition-file path that exists with contents
`json.load` cannot parse makes the whole run fail — the decode error
propagates out of `parse_qsf`, no report is produced. -/
theorem c2_malformed_qsf_counterexample :
    process_qualtrics c2csv (some ⟨true, none⟩) = Except.error () := rfl

/-- C2 amended: only an absent definition-file path is skipped (the run
then equals the CSV-only run); an existing but unparseable definition file
is fatal, as the error-handling design (spec section 7) itself states. -/
theorem c2_malformed_qsf_amended :
    (∀ (csv : CsvData) (j : Option (List SqElement)),
        process_qualtrics csv (some ⟨false, j⟩) = process_qualtrics csv none) ∧
      (∀ csv : CsvData,
        process_qualtrics csv (some ⟨true, none⟩) = Except.error ()) :=
  ⟨fun _ _ => rfl, fun _ => rfl⟩

/-- C3 counterexample: with columns `Q1`, `Q2_1`, `Q2_2` the inferred `Q2`
shape is `grouped` (a matrix needs two sub-indices), so the card does not
render a matrix, and the respondent whose `Q2_1` is empty gets a table
without that item — no neutral placeholder, no dash, the item row is
simply absent. -/
theorem c3_end_to_end_counterexample :
    c3q2.type = "grouped" ∧ c3q2.type ≠ "matrix" ∧
      containsSub (render_answer c3q2 c3rowB) "Thing A" = false ∧
      containsSub (render_answer c3q2 c3rowB) "—" = false := by
  refine ⟨by decide, by decide, by decide, by decide⟩

/-- C3 amended: the report has exactly two question cards; the `Q2` card
renders per-respondent grouped data tables (shape `grouped`, not
`matrix`); the respondent with `Q2_1` empty still appears on the card
(the question counts as answered through `Q2_2`) but their table lists
only the answered item. -/
theorem c3_end_to_end_amended :
    c3questions.length = 2 ∧ c3cards.length = 2 ∧
      c3q2.type = "grouped" ∧
      has_response c3q2 c3rowB = true ∧
      pyStartsWith (render_answer c3q2 c3rowB)
        "<table class=\x27data-table\x27>" = true ∧
      containsSub (render_answer c3q2 c3rowB) "Thing B" = true ∧
      containsSub (render_answer c3q2 c3rowB) "Thing A" = false ∧
      containsSub (c3cards.getD 1 "") "Anonymous #2" = true := by
  refine ⟨by decide, by decide, by decide, by decide, by decide, by decide,
    by decide, by decide⟩

/-- C7: a matrix question whose cells are all empty for a respondent
renders the empty indicator instead of a grid; an individual missing cell
in an otherwise answered matrix renders the neutral dash; and a card on
which no respondent answered carries exactly one no-responses indicator
and no grid shell. -/
theorem c7_matrix_empty (q : Question) (row : Row)
    (hcells : (q.rows.any fun kv => kv.2.cells.isSome) = true)
    (hempty : ∀ cid ∈ matrixCellIds q, is_empty (rowGet row cid) = true) :
    format_matrix_response q row = format_empty ∧
      containsSub (format_matrix_response c7q c7rowPartial)
        "<td class=\x27empty-cell\x27>—</td>" = true ∧
      countSub c7cardNone "no-responses" = 1 ∧
      countSub c7cardNone "matrix-table" = 0 := by
  refine ⟨?_, by decide, by decide, by decide⟩
  have hdata : (q.rows.any fun kv =>
      match kv.2.cells with
      | some cells => cells.any (fun ck => !is_empty (rowGet row ck.2.id))
      | none => false) = false := by
    rw [List.any_eq_false]
    intro kv hkv
    cases hc : kv.2.cells with
    | none => simp [hc]
    | some cells =>
      simp only [hc, Bool.not_eq_true]
      rw [List.any_eq_false]
      intro ck hck
      have hmem : ck.2.id ∈ matrixCellIds q := by
        unfold matrixCellIds
        refine List.mem_flatMap.mpr ⟨kv, hkv, ?_⟩
        rw [hc]
        exact List.mem_map.mpr ⟨ck, hck, rfl⟩
      simp [hempty _ hmem]
  simp only [format_matrix_response, hcells, hdata]
  simp

/-- C7 witness: the concrete two-by-two matrix with a row answering no
cell. -/
theorem c7_matrix_empty_witness :
    (c7q.rows.any fun kv => kv.2.cells.isSome) = true ∧
      format_matrix_response c7q c7rowAllEmpty = format_empty :=
  ⟨by decide, (c7_matrix_empty c7q c7rowAllEmpty (by decide) (by decide)).1⟩

/-- C8: rendering is read-only on the question structure — the embedded
renderers return the structure they were given unchanged — so mapping any
of the four render functions over the respondents commutes with
permutations of the respondent list: each (question, respondent) pair
yields the same fragment in any order. -/
theorem c8_render_read_only (q : Question) (rows1 rows2 : List Row)
    (h : rows1.Perm rows2) :
    (∀ row : Row, (render_answer_st q row).2 = q) ∧
      (rows1.map (format_matrix_response q)).Perm
        (rows2.map (format_matrix_response q)) ∧
      (rows1.map (format_grouped_response q)).Perm
        (rows2.map (format_grouped_response q)) ∧
      (rows1.map (format_form_response q)).Perm
        (rows2.map (format_form_response q)) ∧
      (rows1.map (format_single_response q)).Perm
        (rows2.map (format_single_response q)) :=
  ⟨fun _ => rfl, h.map _, h.map _, h.map _, h.map _⟩

/-- C8 witness: two concrete respondent rows in both orders. -/
theorem c8_render_read_only_witness :
    (render_answer_st c7q c7rowPartial).2 = c7q ∧
      ([c7rowPartial, c7rowAllEmpty].map (format_matrix_response c7q)).Perm
        ([c7rowAllEmpty, c7rowPartial].map (format_matrix_response c7q)) :=
  ⟨(c8_render_read_only c7q [c7rowPartial, c7rowAllEmpty]
      [c7rowAllEmpty, c7rowPartial]
      (List.Perm.swap c7rowAllEmpty c7rowPartial [])).1 c7rowPartial,
   (c8_render_read_only c7q [c7rowPartial, c7rowAllEmpty]
      [c7rowAllEmpty, c7rowPartial]
      (List.Perm.swap c7rowAllEmpty c7rowPartial [])).2.1⟩

/-! ### Stage-identity lemmas for the text normalizer (claim C4) -/

/-- Structure eta: rebuilding a string from its characters is the
identity. -/
theorem strmk_data (s : String) : String.mk s.data = s := rfl

/-- Unfolding `alookup` over a cons cell. -/
theorem alookup_cons {α : Type} (k0 : String) (v0 : α)
    (rest : List (String × α)) (k : String) :
    alookup ((k0, v0) :: rest) k =
      if k0 = k then some v0 else alookup rest k := by
  unfold alookup
  by_cases h : k0 = k
  · rw [List.find?_cons_of_pos _ (by simpa using h), if_pos h]
  · rw [List.find?_cons_of_neg _ (by simpa using h), if_neg h]

/-- A key that `alookup` misses is not among the stored keys. -/
theorem alookup_none_fst {α : Type} (m : List (String × α)) (k : String)
    (h : alookup m k = none) : k ∉ m.map Prod.fst := by
  induction m with
  | nil => simp
  | cons kv rest ih =>
    rcases kv with ⟨k0, v0⟩
    rw [alookup_cons] at h
    split at h
    · exact absurd h (by simp)
    · rename_i hne
      simp only [List.map_cons, List.mem_cons]
      rintro (rfl | hmem)
      · exact hne rfl
      · exact ih h hmem

/-- A hit of `alookup` is an entry of the dict. -/
theorem alookup_some_mem {α : Type} (m : List (String × α)) (k : String)
    (v : α) (h : alookup m k = some v) : (k, v) ∈ m := by
  induction m with
  | nil => simp [alookup] at h
  | cons kv rest ih =>
    rcases kv with ⟨k0, v0⟩
    rw [alookup_cons] at h
    split at h
    · rename_i hk
      rw [Option.some.injEq] at h
      rw [← hk, ← h]
      exact List.mem_cons_self _ _
    · exact List.mem_cons_of_mem _ (ih h)

/-- Entries after `aset`: the new binding or an old entry. -/
theorem mem_aset {α : Type} (m : List (String × α)) (k : String) (v : α) :
    ∀ e ∈ aset m k v, e = (k, v) ∨ e ∈ m := by
  induction m with
  | nil =>
    intro e he
    simp only [aset, List.mem_singleton] at he
    exact Or.inl he
  | cons kv rest ih =>
    rcases kv with ⟨k0, v0⟩
    intro e he
    unfold aset at he
    split at he
    · rename_i hk
      rcases List.mem_cons.mp he with rfl | h2
      · exact Or.inl (by rw [hk])
      · exact Or.inr (List.mem_cons_of_mem _ h2)
    · rcases List.mem_cons.mp he with rfl | h2
      · exact Or.inr (List.mem_cons_self _ _)
      · rcases ih e h2 with h3 | h3
        · exact Or.inl h3
        · exact Or.inr (List.mem_cons_of_mem _ h3)

/-- `amodify` keeps the key sequence. -/
theorem amodify_map_fst {α : Type} (m : List (String × α)) (k : String)
    (f : α → α) : (amodify m k f).map Prod.fst = m.map Prod.fst := by
  induction m with
  | nil => rfl
  | cons kv rest ih =>
    unfold amodify at ih ⊢
    simp only [List.map_cons]
    rw [List.cons.injEq]
    constructor
    · split <;> rfl
    · exact ih

/-- Overwriting an existing key with `aset` keeps the key sequence. -/
theorem aset_map_fst_some {α : Type} (m : List (String × α)) (k : String)
    (v w : α) (h : alookup m k = some w) :
    (aset m k v).map Prod.fst = m.map Prod.fst := by
  induction m with
  | nil => simp [alookup] at h
  | cons kv rest ih =>
    rcases kv with ⟨k0, v0⟩
    rw [alookup_cons] at h
    unfold aset
    split at h
    · rename_i hk
      rw [if_pos hk]
      rfl
    · rename_i hk
      rw [if_neg hk]
      simp only [List.map_cons]
      rw [ih h]

/-- Appending a fresh element preserves `Nodup`. -/
theorem nodup_append_single (l : List String) (a : String) (h : l.Nodup)
    (ha : a ∉ l) : (l ++ [a]).Nodup := by
  induction l with
  | nil => simp
  | cons x xs ih =>
    rw [List.cons_append]
    rw [List.nodup_cons] at h ⊢
    refine ⟨?_, ih h.2 (fun hm => ha (List.mem_cons_of_mem _ hm))⟩
    intro hmem
    rcases List.mem_append.mp hmem with h1 | h1
    · exact h.1 h1
    · have hx : x = a := by simpa using h1
      exact ha (hx ▸ List.mem_cons_self _ _)

/-- A fresh question satisfies the invariant. -/
theorem wf_emptyQuestion (b t it qt sel : String) (qi : Option QsfInfo) :
    questionWF (emptyQuestion b t it qt sel qi) :=
  ⟨List.nodup_nil, rfl, List.nodup_nil⟩

/-- Field updates away from the three structural fields keep the
invariant (definitionally). -/
theorem wf_withType (q : Question) (t : String) (h : questionWF q) :
    questionWF { q with type := t } := h

/-- Text updates keep the invariant. -/
theorem wf_withText (q : Question) (t : String) (h : questionWF q) :
    questionWF { q with text := t } := h

/-- Column tracking keeps the invariant. -/
theorem wf_addColumnIfAbsent (q : Question) (c : String) (h : questionWF q) :
    questionWF (addColumnIfAbsent q c) := by
  unfold addColumnIfAbsent
  split
  · exact h
  · exact h

/-- Adding a fresh item row keeps the invariant. -/
theorem wf_addItemRowIfAbsent (q : Question) (k : String) (ri : RowInfo)
    (h : questionWF q) : questionWF (addItemRowIfAbsent q k ri) := by
  unfold addItemRowIfAbsent
  cases hl : alookup q.rows k with
  | some w => exact h
  | none =>
    obtain ⟨h1, h2, h3⟩ := h
    refine ⟨h1, h2, ?_⟩
    show ((q.rows ++ [(k, ri)]).map Prod.fst).Nodup
    rw [List.map_append]
    exact nodup_append_single _ k h3 (alookup_none_fst q.rows k hl)

/-- Adding a fresh matrix row keeps the invariant. -/
theorem wf_addMatrixRowIfAbsent (q : Question) (k label : String)
    (h : questionWF q) : questionWF (addMatrixRowIfAbsent q k label) := by
  unfold addMatrixRowIfAbsent
  cases hl : alookup q.rows k with
  | some w => exact h
  | none =>
    obtain ⟨h1, h2, h3⟩ := h
    refine ⟨h1, h2, ?_⟩
    show ((q.rows ++ [(k, (⟨none, label, some []⟩ : RowInfo))]).map Prod.fst).Nodup
    rw [List.map_append]
    exact nodup_append_single _ k h3 (alookup_none_fst q.rows k hl)

/-- Writing a cell keeps the invariant. -/
theorem wf_setRowCell (q : Question) (k s2 : String) (cell : CellInfo)
    (h : questionWF q) : questionWF (setRowCell q k s2 cell) := by
  obtain ⟨h1, h2, h3⟩ := h
  unfold questionWF setRowCell
  refine ⟨h1, h2, ?_⟩
  rw [amodify_map_fst]
  exact h3

/-- Refreshing a row label keeps the invariant. -/
theorem wf_setRowLabel (q : Question) (k label : String) (h : questionWF q) :
    questionWF (setRowLabel q k label) := by
  obtain ⟨h1, h2, h3⟩ := h
  unfold questionWF setRowLabel
  refine ⟨h1, h2, ?_⟩
  rw [amodify_map_fst]
  exact h3

/-- Recording a column header on first encounter keeps the invariant. -/
theorem wf_addColHeaderIfAbsent (q : Question) (k label : String)
    (h : questionWF q) : questionWF (addColHeaderIfAbsent q k label) := by
  unfold addColHeaderIfAbsent
  cases hl : alookup q.col_headers k with
  | some w => exact h
  | none =>
    obtain ⟨h1, h2, h3⟩ := h
    have hknot : k ∉ q.col_order := by
      rw [← h2]
      exact alookup_none_fst _ _ hl
    refine ⟨nodup_append_single _ k h1 hknot, ?_, h3⟩
    show (q.col_headers ++ [(k, label)]).map Prod.fst =
      q.col_order ++ [k]
    rw [List.map_append, h2]
    rfl

/-- The CSV matrix-row block keeps the invariant. -/
theorem wf_csvMatrixRow (q : Question) (s1 rl : String) (h : questionWF q) :
    questionWF (csvMatrixRow q s1 rl) := by
  unfold csvMatrixRow
  cases hl : alookup q.rows s1 with
  | none =>
    obtain ⟨h1, h2, h3⟩ := h
    unfold questionWF
    refine ⟨h1, h2, ?_⟩
    rw [List.map_append]
    exact nodup_append_single _ s1 h3 (alookup_none_fst q.rows s1 hl)
  | some w =>
    show questionWF (if rl ≠ "Row " ++ s1 then setRowLabel q s1 rl else q)
    split
    · exact wf_setRowLabel q s1 rl h
    · exact h

/-- The CSV column-header block keeps the invariant. -/
theorem wf_csvColHeader (q : Question) (s2 cl : String) (h : questionWF q) :
    questionWF (csvColHeader q s2 cl) := by
  unfold csvColHeader
  cases hl : alookup q.col_headers s2 with
  | none =>
    obtain ⟨h1, h2, h3⟩ := h
    have hknot : s2 ∉ q.col_order := by
      rw [← h2]
      exact alookup_none_fst _ _ hl
    unfold questionWF
    refine ⟨?_, ?_, ?_⟩
    · exact nodup_append_single _ s2 h1 hknot
    · rw [List.map_append, h2]
      rfl
    · exact h3
  | some w =>
    show questionWF (if cl ≠ "Column " ++ s2 then setColHeader q s2 cl else q)
    split
    · obtain ⟨h1, h2, h3⟩ := h
      unfold questionWF setColHeader
      refine ⟨h1, ?_, h3⟩
      rw [aset_map_fst_some _ _ _ _ hl]
      exact h2
    · exact h

/-- Each operation of the CSV-only extraction step preserves the
structural invariants of every stored question. -/
theorem csvStep_wf (acc : List (String × Question)) (col_id : String)
    (col_text : Option String) (h : ∀ e ∈ acc, questionWF e.2) :
    ∀ e ∈ csvStep acc col_id col_text, questionWF e.2 := by
  intro e he
  unfold csvStep at he
  split at he
  · exact h e he
  · split at he
    · exact h e he
    · split at he
      · exact h e he
      · split at he
        · exact h e he
        · split at he
          · exact h e he
          · rcases mem_aset _ _ _ e he with rfl | hmem
            · show questionWF _
              split
              · apply wf_csvColHeader
                apply wf_setRowCell
                apply wf_csvMatrixRow
                apply wf_withType
                apply wf_addColumnIfAbsent
                split
                · apply wf_withText
                  split
                  · rename_i q hq
                    exact h _ (alookup_some_mem _ _ _ hq)
                  · exact wf_emptyQuestion _ _ _ _ _ _
                · split
                  · rename_i q hq
                    exact h _ (alookup_some_mem _ _ _ hq)
                  · exact wf_emptyQuestion _ _ _ _ _ _
              · apply wf_addItemRowIfAbsent
                apply wf_withType
                apply wf_addColumnIfAbsent
                split
                · apply wf_withText
                  split
                  · rename_i q hq
                    exact h _ (alookup_some_mem _ _ _ hq)
                  · exact wf_emptyQuestion _ _ _ _ _ _
                · split
                  · rename_i q hq
                    exact h _ (alookup_some_mem _ _ _ hq)
                  · exact wf_emptyQuestion _ _ _ _ _ _
              · apply wf_addColumnIfAbsent
                split
                · apply wf_withText
                  split
                  · rename_i q hq
                    exact h _ (alookup_some_mem _ _ _ hq)
                  · exact wf_emptyQuestion _ _ _ _ _ _
                · split
                  · rename_i q hq
                    exact h _ (alookup_some_mem _ _ _ hq)
                  · exact wf_emptyQuestion _ _ _ _ _ _
            · exact h e hmem

/-- The starting record of the QSF-assisted step satisfies the
structural invariants whenever every stored question does. -/
theorem wf_qsfInit (meta : List (String × QsfInfo))
    (acc : List (String × Question)) (col_text : Option String)
    (base_q : String) (h : ∀ e ∈ acc, questionWF e.2) :
    questionWF (qsfInit meta acc col_text base_q) := by
  unfold qsfInit
  split
  · rename_i q hq
    exact h _ (alookup_some_mem _ _ _ hq)
  · exact wf_emptyQuestion _ _ _ _ _ _

/-- The per-column structural update of the QSF-assisted step keeps the
invariants. -/
theorem wf_qsfUpdate (col_id : String) (col_text : Option String)
    (qi : Option QsfInfo) (internal_type : String)
    (sub1 sub2 : Option String)
    (q1 : Question) (h : questionWF q1) :
    questionWF (qsfUpdate col_id col_text qi internal_type sub1 sub2 q1) := by
  unfold qsfUpdate
  split
  · split
    · apply wf_addColHeaderIfAbsent
      apply wf_setRowCell
      apply wf_addMatrixRowIfAbsent
      exact wf_withType _ _ h
    · apply wf_addItemRowIfAbsent
      exact wf_withType _ _ h
    · exact wf_withType _ _ h
  · split
    · split
      · apply wf_addItemRowIfAbsent
        exact wf_withType _ _ h
      · exact wf_withType _ _ h
    · split
      · split
        · apply wf_addItemRowIfAbsent
          exact wf_withType _ _ h
        · exact h
      · split
        · apply wf_addColHeaderIfAbsent
          apply wf_setRowCell
          apply wf_addMatrixRowIfAbsent
          exact wf_withType _ _ h
        · apply wf_addItemRowIfAbsent
          exact wf_withType _ _ h
        · exact h

/-- The parsed-column body of the QSF-assisted extraction step preserves
the structural invariants of every stored question. -/
theorem qsfApply_wf (meta : List (String × QsfInfo))
    (acc : List (String × Question)) (col_id : String)
    (col_text : Option String) (baseNum : String) (sub1 sub2 : Option String)
    (h : ∀ e ∈ acc, questionWF e.2) :
    ∀ e ∈ qsfApply meta acc col_id col_text baseNum sub1 sub2,
      questionWF e.2 := by
  intro e he
  unfold qsfApply at he
  rcases mem_aset _ _ _ e he with rfl | hmem
  · exact wf_qsfUpdate _ _ _ _ _ _ _
      (wf_addColumnIfAbsent _ _ (wf_qsfInit _ _ _ _ h))
  · exact h e hmem

/-- The full QSF-assisted extraction step preserves the structural
invariants of every stored question. -/
theorem qsfStep_wf (meta : List (String × QsfInfo))
    (acc : List (String × Question)) (col_id : String)
    (col_text : Option String) (h : ∀ e ∈ acc, questionWF e.2) :
    ∀ e ∈ qsfStep meta acc col_id col_text, questionWF e.2 := by
  intro e he
  unfold qsfStep at he
  split at he
  · exact h e he
  · split at he
    · exact h e he
    · split at he
      · exact h e he
      · repeat' split at he
        all_goals
          first
            | exact h e he
            | exact qsfApply_wf meta acc col_id col_text _ _ _ h e he

/-- Every question produced by the CSV-only extraction satisfies the
structural invariants. -/
theorem extract_csv_wf :
    ∀ (cols : List (String × Option String)),
      ∀ e ∈ extract_questions_from_csv cols, questionWF e.2 := by
  have hgen : ∀ (cols : List (String × Option String))
      (acc : List (String × Question)), (∀ e ∈ acc, questionWF e.2) →
      ∀ e ∈ cols.foldl (fun acc col => csvStep acc col.1 col.2) acc,
        questionWF e.2 := by
    intro cols
    induction cols with
    | nil =>
      intro acc hacc e he
      rw [List.foldl_nil] at he
      exact hacc e he
    | cons c rest ih =>
      intro acc hacc
      rw [List.foldl_cons]
      exact ih _ (csvStep_wf acc c.1 c.2 hacc)
  intro cols
  exact hgen cols [] (by intro e he; simp at he)

/-- Every question produced by the QSF-assisted extraction satisfies
the structural invariants. -/
theorem extract_qsf_wf :
    ∀ (cols : List (String × Option String)) (meta : List (String × QsfInfo)),
      ∀ e ∈ extract_questions_with_qsf cols meta, questionWF e.2 := by
  have hgen : ∀ (meta : List (String × QsfInfo))
      (cols : List (String × Option String))
      (acc : List (String × Question)), (∀ e ∈ acc, questionWF e.2) →
      ∀ e ∈ cols.foldl (fun acc col => qsfStep meta acc col.1 col.2) acc,
        questionWF e.2 := by
    intro meta cols
    induction cols with
    | nil =>
      intro acc hacc e he
      rw [List.foldl_nil] at he
      exact hacc e he
    | cons c rest ih =>
      intro acc hacc
      rw [List.foldl_cons]
      exact ih _ (qsfStep_wf meta acc c.1 c.2 hacc)
  intro cols meta
  exact hgen meta cols [] (by intro e he; simp at he)

/-- C9: after structure extraction in either mode (with or without a
definition file), every recorded question satisfies the structural
invariants: its column ordering has no duplicates and lists exactly the
keys of its column-header table, one entry per key, and each row key
appears at most once in its row table. -/
theorem c9_structure_invariants :
    (∀ (cols : List (String × Option String))
       (meta : List (String × QsfInfo)) (qid : String) (q : Question),
       (qid, q) ∈ extract_questions_with_qsf cols meta →
         q.col_order.Nodup ∧ q.col_headers.map Prod.fst = q.col_order ∧
           (q.rows.map Prod.fst).Nodup) ∧
    (∀ (cols : List (String × Option String)) (qid : String) (q : Question),
       (qid, q) ∈ extract_questions_from_csv cols →
         q.col_order.Nodup ∧ q.col_headers.map Prod.fst = q.col_order ∧
           (q.rows.map Prod.fst).Nodup) :=
  ⟨fun cols meta qid q hm => extract_qsf_wf cols meta (qid, q) hm,
   fun cols qid q hm => extract_csv_wf cols (qid, q) hm⟩

/-- Witness for C9 on a concrete CSV header row set: the extracted `Q4`
matrix question is in the result and satisfies the invariants. -/
theorem c9_structure_invariants_witness :
    ("Q4", c9q4) ∈ extract_questions_from_csv c9cols ∧
      (c9q4.col_order.Nodup ∧ c9q4.col_headers.map Prod.fst = c9q4.col_order ∧
        (c9q4.rows.map Prod.fst).Nodup) :=
  ⟨by decide, c9_structure_invariants.2 c9cols "Q4" c9q4 (by decide)⟩

set_option maxRecDepth 1000000
set_option maxHeartbeats 2000000

/-- Appending strings concatenates their character lists. -/
theorem strData_append (a b : String) : (a ++ b).data = a.data ++ b.data := rfl

/-- A pointwise implication between predicates lifts to `List.all`. -/
theorem all_imp {α : Type} {p q : α → Bool} (l : List α)
    (hpq : ∀ a, p a = true → q a = true) (h : l.all p = true) :
    l.all q = true := by
  rw [List.all_eq_true] at h ⊢
  exact fun a ha => hpq a (h a ha)

/-- Unfolding equation of `splitOnChar` on a cons cell once the split of
the tail is known. -/
theorem splitOnChar_cons (sep d : Char) (ds q : List Char)
    (qs : List (List Char)) (hsp : splitOnChar sep ds = q :: qs) :
    splitOnChar sep (d :: ds) =
      if d = sep then [] :: q :: qs else (d :: q) :: qs := by
  unfold splitOnChar
  rw [hsp]

/-- `splitOnChar` never returns the empty list of parts. -/
theorem splitOnChar_ne_nil (sep : Char) (cs : List Char) :
    splitOnChar sep cs ≠ [] := by
  induction cs with
  | nil => simp [splitOnChar]
  | cons d ds ih =>
    cases hsp : splitOnChar sep ds with
    | nil => exact absurd hsp ih
    | cons q qs =>
      rw [splitOnChar_cons sep d ds q qs hsp]
      split <;> simp

/-- Every character of a list is either the separator or belongs to one
of the parts `splitOnChar` produces. -/
theorem mem_splitOnChar (sep : Char) :
    ∀ (cs : List Char) (c : Char), c ∈ cs →
      c = sep ∨ ∃ p, p ∈ splitOnChar sep cs ∧ c ∈ p := by
  intro cs
  induction cs with
  | nil => intro c hc; exact absurd hc (List.not_mem_nil c)
  | cons d ds ih =>
    intro c hc
    cases hsp : splitOnChar sep ds with
    | nil => exact absurd hsp (splitOnChar_ne_nil sep ds)
    | cons q qs =>
      rcases List.mem_cons.mp hc with rfl | hmem
      · by_cases hd : c = sep
        · exact Or.inl hd
        · refine Or.inr ⟨c :: q, ?_, List.mem_cons_self _ _⟩
          rw [splitOnChar_cons sep c ds q qs hsp, if_neg hd]
          exact List.mem_cons_self _ _
      · rcases ih c hmem with h1 | ⟨p, hp, hcp⟩
        · exact Or.inl h1
        · rw [hsp] at hp
          by_cases hd : d = sep
          · refine Or.inr ⟨p, ?_, hcp⟩
            rw [splitOnChar_cons sep d ds q qs hsp, if_pos hd]
            exact List.mem_cons_of_mem _ hp
          · rcases List.mem_cons.mp hp with rfl | hp2
            · refine Or.inr ⟨d :: p, ?_, List.mem_cons_of_mem _ hcp⟩
              rw [splitOnChar_cons sep d ds p qs hsp, if_neg hd]
              exact List.mem_cons_self _ _
            · refine Or.inr ⟨p, ?_, hcp⟩
              rw [splitOnChar_cons sep d ds q qs hsp, if_neg hd]
              exact List.mem_cons_of_mem _ hp2
  
/-- Every character of a list is whitespace or survives into the
stripped list. -/
theorem mem_strip_or_space (cs : List Char) (c : Char) (hc : c ∈ cs) :
    isPySpace c = true ∨ c ∈ stripList cs := by
  have h1 : c ∈ cs.takeWhile isPySpace ∨ c ∈ cs.dropWhile isPySpace := by
    rw [← List.mem_append, List.takeWhile_append_dropWhile]
    exact hc
  rcases h1 with h1 | h1
  · exact Or.inl (List.mem_takeWhile_imp h1)
  · have h2 : c ∈ (cs.dropWhile isPySpace).reverse := List.mem_reverse.mpr h1
    have h3 : c ∈ (cs.dropWhile isPySpace).reverse.takeWhile isPySpace ∨
        c ∈ (cs.dropWhile isPySpace).reverse.dropWhile isPySpace := by
      rw [← List.mem_append, List.takeWhile_append_dropWhile]
      exact h2
    rcases h3 with h3 | h3
    · exact Or.inl (List.mem_takeWhile_imp h3)
    · right
      unfold stripList
      exact List.mem_reverse.mpr h3

/-- A one-character substring test finds the character in the list. -/
theorem mem_of_isSubList_singleton (c : Char) :
    ∀ (cs : List Char), isSubList [c] cs = true → c ∈ cs := by
  intro cs
  induction cs with
  | nil => intro h; exact Bool.noConfusion h
  | cons d ds ih =>
    intro h
    unfold isSubList at h
    rw [Bool.or_eq_true] at h
    rcases h with h | h
    · have h0 : ((c == d) && List.isPrefixOf [] ds) = true := h
      rw [Bool.and_eq_true] at h0
      rw [eq_of_beq h0.1]
      exact List.mem_cons_self _ _
    · exact List.mem_cons_of_mem _ (ih h)

/-- Joining parts whose characters all satisfy a predicate with a
separator whose characters do too yields a string whose characters all
satisfy it. -/
theorem joinSep_all (sep : String) (pb : Char → Bool)
    (hsep : sep.data.all pb = true) :
    ∀ (ps : List String), (∀ p ∈ ps, p.data.all pb = true) →
      (joinSep sep ps).data.all pb = true := by
  intro ps
  induction ps with
  | nil => intro _; rfl
  | cons x ys ih =>
    intro h
    cases ys with
    | nil => exact h x (List.mem_cons_self _ _)
    | cons y zs =>
      show (x ++ sep ++ joinSep sep (y :: zs)).data.all pb = true
      rw [strData_append, strData_append, List.all_append, List.all_append,
        Bool.and_eq_true, Bool.and_eq_true]
      refine ⟨⟨h x (List.mem_cons_self _ _), hsep⟩, ?_⟩
      exact ih (fun p hp => h p (List.mem_cons_of_mem _ hp))

/-- A `code` verdict of the classifier can only come from
`is_numeric_code`. -/
theorem detect_code_imp (v : Option String) (qt col : String)
    (h : detect_value_type v qt col = "code") :
    is_numeric_code v qt = true := by
  unfold detect_value_type at h
  repeat' split at h
  all_goals first
    | assumption
    | exact absurd h (by decide)

/-- `is_numeric_code` accepts exactly two shapes: a comma list of short
digit groups, or a plain digit string. -/
theorem numeric_code_cases (v : Option String) (qt : String)
    (h : is_numeric_code v qt = true) :
    (containsSub (safe_str v) "," = true ∧
      (pySplit (safe_str v) ',').all
        (fun p => pyIsDigit (pyStrip p) && (pyStrip p).length ≤ 3) = true) ∨
    (containsSub (safe_str v) "," = false ∧
      pyIsDigit (safe_str v) = true) := by
  have h2 : (if safe_str v = "" then false
      else if contains_any qt NUMERIC_QUESTION_KEYWORDS then false
      else if containsSub (safe_str v) "," &&
          (pySplit (safe_str v) ',').all
            (fun p => pyIsDigit (pyStrip p) && (pyStrip p).length ≤ 3)
        then true
      else if pyIsDigit (safe_str v) then
        if (safe_str v).data.all (fun c => isNdDigit c) then
          if 1 ≤ strToNat (safe_str v) &&
              strToNat (safe_str v) ≤ NUMERIC_CODE_MAX then true
          else if NUMERIC_CODE_RANGE_MIN ≤ strToNat (safe_str v) &&
              strToNat (safe_str v) ≤ NUMERIC_CODE_RANGE_MAX &&
              strToNat (safe_str v) % 100 ≠ 0 then true
          else false
        else false
      else false) = true := h
  split at h2
  · exact absurd h2 (by decide)
  · split at h2
    · exact absurd h2 (by decide)
    · split at h2
      · rename_i hC
        rw [Bool.and_eq_true] at hC
        exact Or.inl hC
      · split at h2
        · rename_i hD
          cases hcm : containsSub (safe_str v) ","
          · exact Or.inr ⟨rfl, hD⟩
          · exfalso
            have hcm2 : isSubList [','] (safe_str v).data = true := hcm
            have hmem := mem_of_isSubList_singleton ','
              (safe_str v).data hcm2
            unfold pyIsDigit at hD
            rw [Bool.and_eq_true] at hD
            have := List.all_eq_true.mp hD.2 ',' hmem
            exact absurd this (by decide)
        · exact absurd h2 (by decide)

/-- A character of the numeric-code inventory — a digit in the
`str.isdigit()` sense, a comma, or a space — is never one of the markup
characters. -/
theorem digitish_not_markup (a : Char)
    (ha : (pyIsDigitChar a || a = ',' || a = ' ') = true) :
    (!(a = '<' || a = '>' || a = '&' ||
       a = Char.ofNat 34 || a = Char.ofNat 39)) = true := by
  by_cases h1 : a = '<'
  · subst h1
    exact absurd ha (by decide)
  by_cases h2 : a = '>'
  · subst h2
    exact absurd ha (by decide)
  by_cases h3 : a = '&'
  · subst h3
    exact absurd ha (by decide)
  by_cases h4 : a = Char.ofNat 34
  · subst h4
    exact absurd ha (by decide)
  by_cases h5 : a = Char.ofNat 39
  · subst h5
    exact absurd ha (by decide)
  simp [h1, h2, h3, h4, h5]

/-- C10 counterexample: the program classifies the superscript pair as
`code` through the comma branch — `str.isdigit()` accepts superscripts,
and no `int()` runs on that branch, so nothing raises — yet superscript
two is no decimal digit: the claimed decimal-digit/comma/whitespace
inventory is false of the program. -/
theorem c10_code_safety_counterexample :
    detect_value_type (some "²,³") "" "Q9" = "code" ∧
      detect_value_type_raises (some "²,³") "" "Q9" = false ∧
        (safe_str (some "²,³")).data.all
          (fun c => isNdDigit c || c = ',' || isPySpace c) = false := by
  refine ⟨?_, ?_, ?_⟩
  · decide
  · decide
  · decide

/-- C10 amended: whenever the classifier returns `code` for a value, the
stripped value consists only of digit characters in the `str.isdigit()`
sense, commas, and whitespace, and `format_code` interpolates into its
span an inner string of such digits, commas, and spaces — none of which
is a markup character, so the unescaped interpolation can never inject
markup into the report. -/
theorem c10_code_safety_amended (v : Option String) (qt col : String)
    (h : detect_value_type v qt col = "code") :
    (safe_str v).data.all
        (fun c => pyIsDigitChar c || c = ',' || isPySpace c) = true ∧
      ∃ inner : String,
        (format_code v =
            "<span class=\x27code-value\x27>[Selections: " ++ inner ++
              "]</span>" ∨
          format_code v =
            "<span class=\x27code-value\x27>[Code: " ++ inner ++
              "]</span>") ∧
          inner.data.all
            (fun c => pyIsDigitChar c || c = ',' || c = ' ') = true ∧
          inner.data.all
            (fun c => !(c = '<' || c = '>' || c = '&' ||
              c = Char.ofNat 34 || c = Char.ofNat 39)) = true := by
  have hnc := detect_code_imp v qt col h
  rcases numeric_code_cases v qt hnc with ⟨hcm, hall⟩ | ⟨hcm, hdig⟩
  · constructor
    · rw [List.all_eq_true]
      intro c hc
      rcases mem_splitOnChar ',' (safe_str v).data c hc with rfl | ⟨p, hp, hcp⟩
      · decide
      · have hP : (pyIsDigit (pyStrip (String.mk p)) &&
            decide ((pyStrip (String.mk p)).length ≤ 3)) = true := by
          have h1 := List.all_eq_true.mp hall (String.mk p)
            (List.mem_map.mpr ⟨p, hp, rfl⟩)
          exact h1
        rw [Bool.and_eq_true] at hP
        have hD := hP.1
        unfold pyIsDigit at hD
        rw [Bool.and_eq_true] at hD
        rcases mem_strip_or_space p c hcp with hs | hd
        · simp [hs]
        · have hcd : pyIsDigitChar c = true := List.all_eq_true.mp hD.2 c hd
          simp [hcd]
    · have hinner : (joinSep ", "
          ((pySplit (safe_str v) ',').map pyStrip)).data.all
            (fun c => pyIsDigitChar c || c = ',' || c = ' ') = true := by
        apply joinSep_all ", " _ (by decide)
        intro p hp
        rcases List.mem_map.mp hp with ⟨P, hP0, rfl⟩
        have hPP := List.all_eq_true.mp hall P hP0
        rw [Bool.and_eq_true] at hPP
        have hD := hPP.1
        unfold pyIsDigit at hD
        rw [Bool.and_eq_true] at hD
        exact all_imp _ (fun a ha => by simp [ha]) hD.2
      refine ⟨joinSep ", " ((pySplit (safe_str v) ',').map pyStrip),
        Or.inl ?_, hinner, all_imp _ digitish_not_markup hinner⟩
      have h0 : format_code v = (if containsSub (safe_str v) "," then
          "<span class=\x27code-value\x27>[Selections: " ++
            joinSep ", " ((pySplit (safe_str v) ',').map pyStrip) ++
            "]</span>"
        else "<span class=\x27code-value\x27>[Code: " ++ safe_str v ++
          "]</span>") := rfl
      rw [h0, if_pos hcm]
  · have hD := hdig
    unfold pyIsDigit at hD
    rw [Bool.and_eq_true] at hD
    have hval : (safe_str v).data.all
        (fun c => pyIsDigitChar c || c = ',' || c = ' ') = true :=
      all_imp _ (fun a ha => by simp [ha]) hD.2
    constructor
    · exact all_imp _ (fun a ha => by simp [ha]) hD.2
    · refine ⟨safe_str v, Or.inr ?_, hval, all_imp _ digitish_not_markup hval⟩
      have h0 : format_code v = (if containsSub (safe_str v) "," then
          "<span class=\x27code-value\x27>[Selections: " ++
            joinSep ", " ((pySplit (safe_str v) ',').map pyStrip) ++
            "]</span>"
        else "<span class=\x27code-value\x27>[Code: " ++ safe_str v ++
          "]</span>") := rfl
      have hcm2 : ¬(containsSub (safe_str v) "," = true) := by
        rw [hcm]
        decide
      rw [h0, if_neg hcm2]

/-- Witness for the amended C10 at the value `1,2,3`: the classifier
answers `code` and the rendered selections carry no markup character. -/
theorem c10_code_safety_amended_witness :
    detect_value_type (some "1,2,3") "" "Q9" = "code" ∧
      ((safe_str (some "1,2,3")).data.all
          (fun c => pyIsDigitChar c || c = ',' || isPySpace c) = true ∧
        ∃ inner : String,
          (format_code (some "1,2,3") =
              "<span class=\x27code-value\x27>[Selections: " ++ inner ++
                "]</span>" ∨
            format_code (some "1,2,3") =
              "<span class=\x27code-value\x27>[Code: " ++ inner ++
                "]</span>") ∧
            inner.data.all
              (fun c => pyIsDigitChar c || c = ',' || c = ' ') = true ∧
            inner.data.all
              (fun c => !(c = '<' || c = '>' || c = '&' ||
                c = Char.ofNat 34 || c = Char.ofNat 39)) = true) :=
  ⟨by decide, c10_code_safety_amended (some "1,2,3") "" "Q9" (by decide)⟩

end Qualtrics
